import Mathlib

/-!
# Verification of the dbset data layer

A shallow embedding of the core of the `dbset` repository (type inference
engine, filter builder, schema manager, and the synchronous table facade from
`src/dbset/types.py`, `src/dbset/query.py`, `src/dbset/schema.py`, and
`src/dbset/sync_core.py`), together with theorems settling the frozen claims
about that code.

Modelling conventions:
* Python runtime values are the inductive `PyValue`; a `Decimal` is carried as
  its `as_tuple()` triple (sign, digit list, exponent), where the exponent is
  an integer or one of the special markers `F` (infinity), `n` (quiet NaN),
  `N` (signaling NaN).  Float payloads are opaque bit patterns: nothing in the
  verified code inspects them.
* SQLAlchemy type descriptors become the inductive `SqlType`.  The relevant
  parts of the SQLAlchemy class hierarchy (Text < String, Float < Numeric,
  JSONB < JSON) are encoded by the `inst_*` predicates so that the
  `isinstance` tests of the source translate faithfully.
* Exceptions become the `DbError` sum; `host_type_error` models an uncaught
  Python `TypeError`.
* The relational backend is out of scope in the source specification; it is
  modelled as ground-truth state (`DbState`) holding, per table key, the
  reflected columns, indexes and stored rows.  Reflection is therefore the
  identity.  Backend evaluation of non-equality operators (LIKE patterns,
  orderings on non-integer data, cross-type coercions) is modelled
  conservatively as non-matching; no claim depends on those operators.
* Stateful operations are pure functions `DbState → DbState × Except DbError α`
  (state is returned on the error path too, matching Python exceptions that
  leave earlier DDL effects in place).
-/

/-- Exponent field of a Python `Decimal.as_tuple()`: a finite integer or one
of the special markers `'F'` (infinity), `'n'` (quiet NaN), `'N'`
(signaling NaN). -/
inductive DecExp where
  | fin (e : Int)
  | inf
  | qnan
  | snan
deriving DecidableEq, Repr

/-- The triple returned by `Decimal.as_tuple()`. -/
structure DecTuple where
  sign : Nat
  digits : List Nat
  exponent : DecExp
deriving DecidableEq, Repr

/-- Python runtime values as seen by the dbset layer.  `other` stands for any
value of an unsupported type and carries `type(value).__name__`. -/
inductive PyValue where
  | none
  | bool (b : Bool)
  | int (n : Int)
  | decimal (d : DecTuple)
  | float (bits : Nat)
  | datetime (ts : Int)
  | date (ts : Int)
  | str (s : String)
  | bytes (bs : List Nat)
  | dict (entries : List (String × PyValue))
  | list (items : List PyValue)
  | other (type_name : String)

/-- SQLAlchemy column type descriptors used by dbset. -/
inductive SqlType where
  | boolean
  | integer
  | float
  | numeric (precision scale : Option Int)
  | text
  | string (length : Option Nat)
  | date
  | datetime
  | json
  | jsonb
deriving DecidableEq, Repr

/-- Constructor tag, used to model Python `type(a) == type(b)` on
SQLAlchemy type instances. -/
def SqlType.tag : SqlType → Nat
  | .boolean => 0
  | .integer => 1
  | .float => 2
  | .numeric _ _ => 3
  | .text => 4
  | .string _ => 5
  | .date => 6
  | .datetime => 7
  | .json => 8
  | .jsonb => 9

/-- Python `type(a) == type(b)` on SQLAlchemy type instances. -/
def same_class (a b : SqlType) : Bool := a.tag == b.tag

/-- `isinstance(t, String)`: SQLAlchemy `Text` is a subclass of `String`. -/
def inst_string : SqlType → Bool
  | .string _ => true
  | .text => true
  | _ => false

/-- `isinstance(t, Numeric)`: SQLAlchemy `Float` is a subclass of `Numeric`. -/
def inst_numeric : SqlType → Bool
  | .numeric _ _ => true
  | .float => true
  | _ => false

/-- `isinstance(t, Integer)`. -/
def inst_integer : SqlType → Bool
  | .integer => true
  | _ => false

/-- `isinstance(t, Float)`. -/
def inst_float : SqlType → Bool
  | .float => true
  | _ => false

/-- `isinstance(t, Date)`. -/
def inst_date : SqlType → Bool
  | .date => true
  | _ => false

/-- `isinstance(t, DateTime)`. -/
def inst_datetime : SqlType → Bool
  | .datetime => true
  | _ => false

/-- `isinstance(t, (JSON, JSONB))`: `JSONB` is a subclass of `JSON`. -/
def inst_json : SqlType → Bool
  | .json => true
  | .jsonb => true
  | _ => false

/-- `.length` attribute on a `String`-instance (`Text().length` is `None`). -/
def str_length : SqlType → Option Nat
  | .string l => l
  | _ => Option.none

/-- `.precision` attribute on a `Numeric`-instance (`Float()` defaults to
`precision=None`). -/
def num_precision : SqlType → Option Int
  | .numeric p _ => p
  | _ => Option.none

/-- `.scale` attribute on a `Numeric`-instance (`Float.scale` is the class
attribute `None`). -/
def num_scale : SqlType → Option Int
  | .numeric _ s => s
  | _ => Option.none

/-- The dbset exception hierarchy (`src/dbset/exceptions.py`), plus
`value_error` for Python `ValueError` and `host_type_error` for an uncaught
Python `TypeError`.  Exception messages are carried as plain strings; quote
characters of the original f-strings are elided. -/
inductive DbError where
  | conn (msg : String)
  | table_not_found (table_name : String)
  | column_not_found (column_name table_name : String)
  | read_only_error (operation : String)
  | transaction_error (msg : String)
  | validation (msg : String)
  | schema_error (msg : String) (table_name : Option String)
  | query (msg : String)
  | type_inference (msg : String)
  | value_error (msg : String)
  | host_type_error (msg : String)
deriving DecidableEq, Repr

/-- `TypeInference._calculate_decimal_precision` (types.py:118-164).
Returns `none` for the special values handled by the `('F', 'n')` test.
A signaling NaN (`'N'`) escapes that test; when the coefficient is not the
single digit 0 the subsequent Python comparison `exponent >= 0` between the
marker string and an int raises `TypeError`, modelled as `host_type_error`. -/
def TypeInference.calculate_decimal_precision (value : DecTuple) :
    Except DbError (Option (Int × Int)) :=
  if value.exponent = DecExp.inf ∨ value.exponent = DecExp.qnan then
    .ok Option.none
  else if value.digits = [0] then
    -- num_digits == 1 and digits[0] == 0
    .ok (some (1, 0))
  else
    match value.exponent with
    | .fin exponent =>
      let num_digits : Int := value.digits.length
      let scale : Int := if exponent ≥ 0 then 0 else |exponent|
      let precision : Int := if exponent ≥ 0 then num_digits + exponent else num_digits
      if precision > 38 then .ok (some (38, min scale 38))
      else .ok (some (precision, scale))
    | _ => .error (.host_type_error "not supported between instances of str and int")

/-- `TypeInference.infer_type` (types.py:38-116).  The deprecated
`max_string_length` parameter is ignored by the source and omitted here. -/
def TypeInference.infer_type (value : PyValue) (dialect : Option String := Option.none) :
    Except DbError SqlType :=
  match value with
  | .none => .ok .text
  | .bool _ => .ok .boolean
  | .int _ => .ok .integer
  | .decimal d =>
    match TypeInference.calculate_decimal_precision d with
    | .error e => .error e
    | .ok Option.none => .ok .float
    | .ok (some (precision, scale)) => .ok (.numeric (some precision) (some scale))
  | .float _ => .ok .float
  | .datetime _ => .ok .datetime
  | .date _ => .ok .date
  | .str _ => .ok .text
  | .bytes _ => .ok .text
  | .dict _ => .ok (if dialect = some "postgresql" then .jsonb else .json)
  | .list _ => .ok (if dialect = some "postgresql" then .jsonb else .json)
  | .other tn => .error (.type_inference ("Cannot infer SQLAlchemy type for Python type: " ++ tn))

/-- A row / dict of column name to value.  Python dicts preserve insertion
order and have unique keys; assoc lists with `List.lookup` model them. -/
abbrev Row := List (String × PyValue)

/-- `TypeInference.infer_types_from_row` (types.py:166-197). -/
def TypeInference.infer_types_from_row (row : Row) (dialect : Option String := Option.none) :
    Except DbError (List (String × SqlType)) :=
  match row with
  | [] => .ok []
  | (column_name, value) :: rest =>
    match TypeInference.infer_type value dialect with
    | .error e => .error e
    | .ok t =>
      match TypeInference.infer_types_from_row rest dialect with
      | .error e => .error e
      | .ok ts => .ok ((column_name, t) :: ts)

/-- `TypeInference._merge_numeric_types` (types.py:269-299). -/
def TypeInference.merge_numeric_types (type1 type2 : SqlType) : SqlType :=
  match num_precision type1, num_precision type2, num_scale type1, num_scale type2 with
  | some p1, some p2, some s1, some s2 =>
    let max_precision := max p1 p2
    let max_scale := max s1 s2
    let max_precision := if max_precision < max_scale then max_scale else max_precision
    .numeric (some max_precision) (some max_scale)
  | _, _, _, _ => .numeric Option.none Option.none

/-- `TypeInference.merge_types` (types.py:199-267), with the `isinstance`
chain in source order. -/
def TypeInference.merge_types (type1 type2 : SqlType) : SqlType :=
  if same_class type1 type2 then
    if inst_string type1 && inst_string type2 then
      match str_length type1, str_length type2 with
      | some l1, some l2 => .string (some (max l1 l2))
      | _, _ => .string Option.none
    else if inst_numeric type1 && inst_numeric type2 then
      TypeInference.merge_numeric_types type1 type2
    else type1
  else if inst_integer type1 && inst_float type2 then .float
  else if inst_float type1 && inst_integer type2 then .float
  else if inst_numeric type1 && inst_integer type2 then type1
  else if inst_integer type1 && inst_numeric type2 then type2
  else if inst_numeric type1 && inst_float type2 then .float
  else if inst_float type1 && inst_numeric type2 then .float
  else if inst_date type1 && inst_datetime type2 then .datetime
  else if inst_datetime type1 && inst_date type2 then .datetime
  else if inst_string type1 && inst_string type2 then .text
  else if inst_json type1 && inst_json type2 then
    (if type1 = .jsonb ∨ type2 = .jsonb then .jsonb else .json)
  else .text

/-- The decimal precision/scale computation as described by the
specification: decompose into digit count and exponent; for a non-negative
exponent, scale is 0 and precision is digit-count + exponent; for a negative
exponent, scale is the exponent magnitude and precision the digit count; cap
precision at 38, capping scale at 38 only when capping occurs. -/
def spec_decimal_numeric (digits : List Nat) (e : Int) : Int × Int :=
  let nd : Int := digits.length
  let p : Int := if e ≥ 0 then nd + e else nd
  let s : Int := if e ≥ 0 then 0 else -e
  if p > 38 then (38, min s 38) else (p, s)


/-- 32-bit truncation. -/
def w32 (x : Nat) : Nat := x % 4294967296

/-- 32-bit complement (operand assumed < 2^32 where used). -/
def wnot (x : Nat) : Nat := 4294967295 - w32 x

/-- 32-bit left rotation (operand assumed < 2^32 where used). -/
def rotl (x s : Nat) : Nat := w32 (x * 2 ^ s) + x / 2 ^ (32 - s)

/-- The MD5 per-round shift table. -/
def md5_s : List Nat :=
  [7, 12, 17, 22, 7, 12, 17, 22, 7, 12, 17, 22, 7, 12, 17, 22,
   5, 9, 14, 20, 5, 9, 14, 20, 5, 9, 14, 20, 5, 9, 14, 20,
   4, 11, 16, 23, 4, 11, 16, 23, 4, 11, 16, 23, 4, 11, 16, 23,
   6, 10, 15, 21, 6, 10, 15, 21, 6, 10, 15, 21, 6, 10, 15, 21]

/-- The MD5 sine-derived constant table. -/
def md5_k : List Nat :=
  [0xd76aa478, 0xe8c7b756, 0x242070db, 0xc1bdceee,
   0xf57c0faf, 0x4787c62a, 0xa8304613, 0xfd469501,
   0x698098d8, 0x8b44f7af, 0xffff5bb1, 0x895cd7be,
   0x6b901122, 0xfd987193, 0xa679438e, 0x49b40821,
   0xf61e2562, 0xc040b340, 0x265e5a51, 0xe9b6c7aa,
   0xd62f105d, 0x02441453, 0xd8a1e681, 0xe7d3fbc8,
   0x21e1cde6, 0xc33707d6, 0xf4d50d87, 0x455a14ed,
   0xa9e3e905, 0xfcefa3f8, 0x676f02d9, 0x8d2a4c8a,
   0xfffa3942, 0x8771f681, 0x6d9d6122, 0xfde5380c,
   0xa4beea44, 0x4bdecfa9, 0xf6bb4b60, 0xbebfbc70,
   0x289b7ec6, 0xeaa127fa, 0xd4ef3085, 0x04881d05,
   0xd9d4d039, 0xe6db99e5, 0x1fa27cf8, 0xc4ac5665,
   0xf4292244, 0x432aff97, 0xab9423a7, 0xfc93a039,
   0x655b59c3, 0x8f0ccc92, 0xffeff47d, 0x85845dd1,
   0x6fa87e4f, 0xfe2ce6e0, 0xa3014314, 0x4e0811a1,
   0xf7537e82, 0xbd3af235, 0x2ad7d2bb, 0xeb86d391]

/-- The four-word MD5 working state. -/
structure MD5State where
  a : Nat
  b : Nat
  c : Nat
  d : Nat

/-- Little-endian byte list of a natural number, truncated to `n` bytes. -/
def le_bytes : Nat → Nat → List Nat
  | 0, _ => []
  | n + 1, x => x % 256 :: le_bytes n (x / 256)

/-- Split a byte list into groups of four (dropping any incomplete tail;
inputs here always have length a multiple of 64). -/
def group4 : List Nat → List (List Nat)
  | b0 :: b1 :: b2 :: b3 :: rest => [b0, b1, b2, b3] :: group4 rest
  | _ => []

/-- The sixteen little-endian 32-bit words of a 64-byte chunk. -/
def words16 (chunk : List Nat) : List Nat :=
  (group4 chunk).map (fun g => g.foldr (fun b acc => acc * 256 + b) 0)

/-- One MD5 round. -/
def md5_round (w : List Nat) (st : MD5State) (i : Nat) : MD5State :=
  let f :=
    if i < 16 then (st.b &&& st.c) ||| (wnot st.b &&& st.d)
    else if i < 32 then (st.d &&& st.b) ||| (wnot st.d &&& st.c)
    else if i < 48 then st.b ^^^ st.c ^^^ st.d
    else st.c ^^^ (st.b ||| wnot st.d)
  let g :=
    if i < 16 then i
    else if i < 32 then (5 * i + 1) % 16
    else if i < 48 then (3 * i + 5) % 16
    else (7 * i) % 16
  let f2 := w32 (f + st.a + md5_k.getD i 0 + w.getD g 0)
  ⟨st.d, w32 (st.b + rotl f2 (md5_s.getD i 0)), st.b, st.c⟩

/-- Process one 64-byte chunk. -/
def md5_compress (h : MD5State) (chunk : List Nat) : MD5State :=
  let w := words16 chunk
  let r := (List.range 64).foldl (md5_round w) h
  ⟨w32 (h.a + r.a), w32 (h.b + r.b), w32 (h.c + r.c), w32 (h.d + r.d)⟩

/-- MD5 padding: 0x80, zeros to 56 mod 64, then the 64-bit little-endian
bit length. -/
def md5_pad (msg : List Nat) : List Nat :=
  let len := msg.length
  let z := (120 - (len + 1) % 64) % 64
  msg ++ [128] ++ List.replicate z 0 ++ le_bytes 8 (len * 8)

/-- Split into 64-byte chunks. -/
def chunks64 (l : List Nat) : List (List Nat) :=
  if h : l = [] then [] else l.take 64 :: chunks64 (l.drop 64)
termination_by l.length
decreasing_by
  simp only [List.length_drop]
  have h1 : 0 < l.length := List.length_pos.mpr h
  omega

/-- MD5 digest of a byte list, as 16 bytes. -/
def md5_bytes (msg : List Nat) : List Nat :=
  let final := (chunks64 (md5_pad msg)).foldl md5_compress
    ⟨0x67452301, 0xefcdab89, 0x98badcfe, 0x10325476⟩
  le_bytes 4 final.a ++ le_bytes 4 final.b ++ le_bytes 4 final.c ++ le_bytes 4 final.d

/-- Lowercase hex digit. -/
def hex_digit (n : Nat) : Char := "0123456789abcdef".data.getD n '0'

/-- Two lowercase hex characters of a byte. -/
def byte_hex (b : Nat) : List Char := [hex_digit (b / 16 % 16), hex_digit (b % 16)]

/-- `hashlib.md5(...).hexdigest()` as a character list. -/
def md5_hex (msg : List Nat) : List Char := ((md5_bytes msg).map byte_hex).flatten

/-- UTF-8 encoding of one character (Python `str.encode()`). -/
def utf8_encode_char (c : Char) : List Nat :=
  let n := c.toNat
  if n < 128 then [n]
  else if n < 2048 then [192 + n / 64, 128 + n % 64]
  else if n < 65536 then [224 + n / 4096, 128 + n / 64 % 64, 128 + n % 64]
  else [240 + n / 262144, 128 + n / 4096 % 64, 128 + n / 64 % 64, 128 + n % 64]

/-- UTF-8 encoding of a character list. -/
def utf8_encode (s : List Char) : List Nat := (s.map utf8_encode_char).flatten

/-- `f"idx_{table_name}_{col_part}"` with `col_part = "_".join(columns)`,
on character lists. -/
def index_base_name (table_name : List Char) (columns : List (List Char)) : List Char :=
  "idx_".data ++ table_name ++ "_".data ++ List.intercalate "_".data columns

/-- `SyncSchemaManager._generate_index_name` (schema.py:651-674), on
character lists: return the deterministic base name when it fits in 63
characters, else truncate and append an 8-hex-character MD5 suffix of the
full base name (encoded as UTF-8, as Python `str.encode()` does). -/
def generate_index_name_chars (table_name : List Char) (columns : List (List Char)) : List Char :=
  let base_name := index_base_name table_name columns
  if base_name.length ≤ 63 then base_name
  else
    let hash_suffix := (md5_hex (utf8_encode base_name)).take 8
    let max_pre := 63 - hash_suffix.length - 1
    base_name.take max_pre ++ "_".data ++ hash_suffix

/-- `SyncSchemaManager._generate_index_name` on strings. -/
def SyncSchemaManager.generate_index_name (table_name : String) (columns : List String) : String :=
  ⟨generate_index_name_chars table_name.data (columns.map String.data)⟩


/-- Comparison operators of the filter grammar (`FilterBuilder.OPERATORS`,
query.py:30-49).  The convenience wrappers startswith/endswith/contains
compile to `like` with a wrapped pattern, as in the source. -/
inductive CmpOp where
  | eq
  | ne
  | gt
  | ge
  | lt
  | le
  | inList
  | notInList
  | like
  | ilike
  | notLike
  | isOp
  | isNotOp
  | between
deriving DecidableEq, Repr

/-- SQLAlchemy boolean clauses produced by the filter builder: a comparison
clause on one column, or an `and_`/`or_` combination. -/
inductive SqlClause where
  | cmp (op : CmpOp) (column : String) (operand : PyValue)
  | conj (clauses : List SqlClause)
  | disj (clauses : List SqlClause)

/- Number of atomic WHERE conditions in a clause. -/
mutual
def SqlClause.cond_count : SqlClause → Nat
  | .cmp _ _ _ => 1
  | .conj ps => SqlClause.cond_count_list ps
  | .disj ps => SqlClause.cond_count_list ps
def SqlClause.cond_count_list : List SqlClause → Nat
  | [] => 0
  | p :: ps => SqlClause.cond_count p + SqlClause.cond_count_list ps
end

/-- Python `str.upper()` on the ASCII strings used here, character-wise
(reduction-friendly form of `String.toUpper`). -/
def py_str_upper (s : String) : String := ⟨s.data.map Char.toUpper⟩

/-- The closed operator set, in source dict order. -/
def valid_operators : List String :=
  ["=", "==", "!=", ">", ">=", "<", "<=", "in", "not_in", "like", "ilike",
   "not_like", "startswith", "endswith", "contains", "is", "is_not", "between"]

/-- Operator name to `CmpOp` (defined only on `valid_operators`). -/
def op_cmp : String → CmpOp
  | "=" => .eq
  | "==" => .eq
  | "!=" => .ne
  | ">" => .gt
  | ">=" => .ge
  | "<" => .lt
  | "<=" => .le
  | "in" => .inList
  | "not_in" => .notInList
  | "like" => .like
  | "ilike" => .ilike
  | "not_like" => .notLike
  | "startswith" => .like
  | "endswith" => .like
  | "contains" => .like
  | "is" => .isOp
  | "is_not" => .isNotOp
  | "between" => .between
  | _ => .eq

/-- Python f-string rendering of an operand, used by the
startswith/endswith/contains wrappers.  Rendering of float/decimal and
structured payloads is not needed by any claim and is left schematic. -/
def py_fstr : PyValue → String
  | .none => "None"
  | .bool true => "True"
  | .bool false => "False"
  | .int n => toString n
  | .str s => s
  | _ => "<value>"

/-- Operand actually embedded in the clause: the convenience wrappers wrap
the operand in LIKE wildcards (query.py:43-45). -/
def op_operand : String → PyValue → PyValue
  | "startswith", v => .str (py_fstr v ++ "%")
  | "endswith", v => .str ("%" ++ py_fstr v)
  | "contains", v => .str ("%" ++ py_fstr v ++ "%")
  | _, v => v

/-- `FilterBuilder.OPERATORS[operator](column, op_value)`. -/
def op_clause (operator : String) (column : String) (op_value : PyValue) : SqlClause :=
  .cmp (op_cmp operator) column (op_operand operator op_value)

/-- Python `isinstance(op_value, (list, tuple)) and len(op_value) == 2`
(tuples are modelled as lists). -/
def between_operand_ok : PyValue → Bool
  | .list l => l.length == 2
  | _ => false

/-- Python `isinstance(op_value, (list, tuple))`. -/
def is_seq_value : PyValue → Bool
  | .list _ => true
  | _ => false

/-- Reflected table structure: the bare table name, the columns (name and
type), the indexes (name and column list) and — standing in for the
out-of-scope backend — the stored rows. -/
structure TableData where
  name : String
  columns : List (String × SqlType)
  indexes : List (String × List String)
  rows : List Row

/-- The clauses contributed by one operator-mapping filter entry
(query.py:115-145): unknown operators, malformed BETWEEN and non-sequence
IN/NOT_IN operands raise `QueryError`. -/
def op_clauses (column : String) : List (String × PyValue) → Except DbError (List SqlClause)
  | [] => .ok []
  | (operator, op_value) :: rest =>
    if valid_operators.contains operator then
      if operator == "between" && !between_operand_ok op_value then
        .error (.query "BETWEEN operator requires list/tuple of 2 values")
      else if (operator == "in" || operator == "not_in") && !is_seq_value op_value then
        .error (.query (py_str_upper operator ++ " operator requires list/tuple"))
      else
        match op_clauses column rest with
        | .error e => .error e
        | .ok cs => .ok (op_clause operator column op_value :: cs)
    else
      .error (.query ("Unknown operator: " ++ operator ++ ". Valid operators: " ++
        String.intercalate ", " valid_operators))

/-- Python `isinstance(value, dict)`, exposing the entries. -/
def as_dict_entries : PyValue → Option (List (String × PyValue))
  | .dict entries => some entries
  | _ => Option.none

/-- The clause list built by the main loop of `FilterBuilder.build`
(query.py:103-148): per entry, the column must exist in the table; a dict
value is an operator mapping, any other value an equality filter. -/
def build_clauses (table : TableData) : List (String × PyValue) → Except DbError (List SqlClause)
  | [] => .ok []
  | (column_name, value) :: rest =>
    if (table.columns.map Prod.fst).contains column_name then
      match as_dict_entries value with
      | some entries =>
        match op_clauses column_name entries with
        | .error e => .error e
        | .ok cs =>
          match build_clauses table rest with
          | .error e => .error e
          | .ok cs2 => .ok (cs ++ cs2)
      | Option.none =>
        match build_clauses table rest with
        | .error e => .error e
        | .ok cs2 => .ok (.cmp .eq column_name value :: cs2)
    else
      .error (.query ("Column " ++ column_name ++ " not found in table " ++ table.name))

/-- `FilterBuilder.build` (query.py:51-164): empty filters give no clause;
one clause is returned unwrapped; several are AND- or OR-combined. -/
def FilterBuilder.build (table : TableData) (filters : List (String × PyValue))
    (conjunction : String := "AND") : Except DbError (Option SqlClause) :=
  if filters.isEmpty then .ok Option.none
  else
    match build_clauses table filters with
    | .error e => .error e
    | .ok [] => .ok Option.none
    | .ok [c] => .ok (some c)
    | .ok cs =>
      if py_str_upper conjunction = "AND" then .ok (some (.conj cs))
      else if py_str_upper conjunction = "OR" then .ok (some (.disj cs))
      else .error (.query ("Invalid conjunction: " ++ conjunction ++ ". Must be AND or OR"))

/-- `FilterBuilder.parse_order_by` (query.py:166-217) on an order-by list;
returns (column, descending) pairs.  The single-string normalization is a
host-typing concern and is omitted. -/
def FilterBuilder.parse_order_by (table : TableData) (order_by : List String) :
    Except DbError (List (String × Bool)) :=
  match order_by with
  | [] => .ok []
  | col_spec :: rest =>
    let column_name := if col_spec.startsWith "-" then col_spec.drop 1 else col_spec
    let descending := col_spec.startsWith "-"
    if (table.columns.map Prod.fst).contains column_name then
      match FilterBuilder.parse_order_by table rest with
      | .error e => .error e
      | .ok cs => .ok ((column_name, descending) :: cs)
    else
      .error (.query ("Column " ++ column_name ++ " not found in table " ++ table.name))

/-- Backend equality of two stored scalar literals.  Cross-type coercions
and structured (JSON) comparisons are backend-specific and outside the
modelled fragment (treated as not equal); SQL NULL is handled at the
operator level. -/
def sql_value_eq : PyValue → PyValue → Bool
  | .bool a, .bool b => a == b
  | .int a, .int b => a == b
  | .decimal a, .decimal b => a == b
  | .float a, .float b => a == b
  | .datetime a, .datetime b => a == b
  | .date a, .date b => a == b
  | .str a, .str b => a == b
  | .bytes a, .bytes b => a == b
  | _, _ => false

/-- Is the stored value SQL NULL (a missing column reads as NULL)? -/
def is_null_val : PyValue → Bool
  | .none => true
  | _ => false

/-- Backend evaluation of one comparison clause against a stored value.
Equality with a `None` operand is SQLAlchemy `IS NULL` (and `!= None` is
`IS NOT NULL`); NULL operands of ordinary comparisons never match,
mirroring SQL three-valued logic.  Ordering is modelled on integers and
LIKE patterns conservatively as non-matching: no claim depends on them. -/
def cmp_matches (op : CmpOp) (stored : PyValue) (v : PyValue) : Bool :=
  match op with
  | .eq =>
    if is_null_val v then is_null_val stored
    else !is_null_val stored && sql_value_eq stored v
  | .ne =>
    if is_null_val v then !is_null_val stored
    else !is_null_val stored && !sql_value_eq stored v
  | .gt => match stored, v with | .int a, .int b => a > b | _, _ => false
  | .ge => match stored, v with | .int a, .int b => a ≥ b | _, _ => false
  | .lt => match stored, v with | .int a, .int b => a < b | _, _ => false
  | .le => match stored, v with | .int a, .int b => a ≤ b | _, _ => false
  | .inList => match v with
    | .list vs => !is_null_val stored && vs.any (fun x => sql_value_eq stored x)
    | _ => false
  | .notInList => match v with
    | .list vs => !is_null_val stored && vs.all (fun x => !sql_value_eq stored x)
    | _ => false
  | .like => false
  | .ilike => false
  | .notLike => false
  | .isOp => if is_null_val v then is_null_val stored else sql_value_eq stored v
  | .isNotOp => if is_null_val v then !is_null_val stored else !sql_value_eq stored v
  | .between => match stored, v with
    | .int a, .list [.int lo, .int hi] => lo ≤ a && a ≤ hi
    | _, _ => false

/- Backend evaluation of a WHERE clause against a stored row. -/
mutual
def SqlClause.row_matches : SqlClause → Row → Bool
  | .cmp op column v, r => cmp_matches op ((r.lookup column).getD PyValue.none) v
  | .conj ps, r => SqlClause.all_match ps r
  | .disj ps, r => SqlClause.any_match ps r
def SqlClause.all_match : List SqlClause → Row → Bool
  | [], _ => true
  | p :: ps, r => SqlClause.row_matches p r && SqlClause.all_match ps r
def SqlClause.any_match : List SqlClause → Row → Bool
  | [], _ => false
  | p :: ps, r => SqlClause.row_matches p r || SqlClause.any_match ps r
end

/-- `PrimaryKeyType` (types.py:302-307). -/
inductive PkType where
  | integer
  | uuid
  | custom
deriving DecidableEq, Repr

/-- `PrimaryKeyConfig` (types.py:310-431).  The value generator is impure in
the source (`uuid4`, user callables); it is modelled as a pure function of a
generation counter threaded through the database state. -/
structure PkConfig where
  pk_type : PkType
  column_name : String := "id"
  generator : Option (Nat → PyValue) := Option.none
  sqlalchemy_type : SqlType
  autoincrement : Bool

/-- `PrimaryKeyConfig()` with all defaults: Integer autoincrement on `id`. -/
def default_pk_config : PkConfig :=
  { pk_type := .integer, column_name := "id", generator := Option.none,
    sqlalchemy_type := .integer, autoincrement := true }

/-- `PrimaryKeyConfig.__init__` (types.py:346-395).  `uuid4_default` stands
for the host `lambda: str(uuid4())` default generator. -/
def mk_primary_key_config (pk_type : PkType) (column_name : String := "id")
    (generator : Option (Nat → PyValue) := Option.none)
    (sqlalchemy_type : Option SqlType := Option.none)
    (uuid4_default : Nat → PyValue := fun _ => .str "uuid4") :
    Except DbError PkConfig :=
  match pk_type with
  | .integer =>
    .ok { pk_type := .integer, column_name, generator := Option.none,
          sqlalchemy_type := .integer, autoincrement := true }
  | .uuid =>
    .ok { pk_type := .uuid, column_name, generator := some (generator.getD uuid4_default),
          sqlalchemy_type := sqlalchemy_type.getD (.string (some 36)), autoincrement := false }
  | .custom =>
    match generator with
    | Option.none => .error (.value_error "CUSTOM pk_type requires generator function")
    | some g =>
      match sqlalchemy_type with
      | Option.none => .error (.value_error "CUSTOM pk_type requires sqlalchemy_type")
      | some t =>
        .ok { pk_type := .custom, column_name, generator := some g,
              sqlalchemy_type := t, autoincrement := false }

/-- The backend state: the authoritative schema plus stored rows, keyed by
the (possibly schema-qualified) table key, and the generation counter
feeding primary-key generators.  Reflection always re-reads this state, so
it is modelled as the single source of truth. -/
structure DbState where
  tables : List (String × TableData)
  gen_ctr : Nat := 0

/-- Database-level configuration shared by all table facades
(`Database.__init__`, sync_core.py:33-65). -/
structure DbCfg where
  read_only : Bool := false
  ensure_schema : Bool := true
  pk : PkConfig := default_pk_config
  dialect : String := "sqlite"
  schema_name : Option String := Option.none

def lookup_table (st : DbState) (key : String) : Option TableData :=
  st.tables.lookup key

/-- Replace the table stored under `key` (no-op when absent). -/
def set_table (st : DbState) (key : String) (td : TableData) : DbState :=
  { st with tables := st.tables.map (fun p => if p.1 = key then (key, td) else p) }

/-- `f"{schema}.{table_name}" if schema else table_name`. -/
def full_table_name (schema_name : Option String) (table_name : String) : String :=
  match schema_name with
  | some s => s ++ "." ++ table_name
  | Option.none => table_name

/-- The metadata lookup performed by the schema manager: the
schema-qualified key first, then the bare name
(schema.py:497-504, 769-775). -/
def resolve_table_key (schema_name : Option String) (st : DbState) (table_name : String) :
    Option String :=
  let full := full_table_name schema_name table_name
  if (lookup_table st full).isSome then some full
  else if (lookup_table st table_name).isSome then some table_name
  else Option.none

/-- `SyncSchemaManager.create_table` (schema.py:529-572): the column list
starts with the configured primary-key column, skipping a duplicate among
the extra columns; creation uses checkfirst semantics.  The created table
is returned via its state key. -/
def SyncSchemaManager.create_table (cfg : DbCfg) (st : DbState) (table_name : String)
    (columns : Option (List (String × SqlType)) := Option.none)
    (pk_config : Option PkConfig := Option.none) : DbState × Except DbError String :=
  let pkc := pk_config.getD default_pk_config
  let table_columns := (pkc.column_name, pkc.sqlalchemy_type) ::
    (columns.getD []).filter (fun c => c.1 ≠ pkc.column_name)
  let key := full_table_name cfg.schema_name table_name
  let st2 :=
    if (lookup_table st key).isSome then st
    else { st with tables := st.tables ++ [(key, ⟨table_name, table_columns, [], []⟩)] }
  (st2, .ok key)

/-- `SyncSchemaManager.get_table` (schema.py:487-511): reflect, return the
table when present (qualified or bare key), else fail with
table-not-found, or create it when `ensure_exists`. -/
def SyncSchemaManager.get_table (cfg : DbCfg) (st : DbState) (table_name : String)
    (ensure_exists : Bool := false) (pk_config : Option PkConfig := Option.none) :
    DbState × Except DbError String :=
  match resolve_table_key cfg.schema_name st table_name with
  | some key => (st, .ok key)
  | Option.none =>
    if ensure_exists then SyncSchemaManager.create_table cfg st table_name Option.none pk_config
    else (st, .error (.table_not_found table_name))

/-- `SyncSchemaManager.add_column` (schema.py:586-616): issue ALTER TABLE
ADD COLUMN and re-reflect.  The DDL itself cannot fail in the model. -/
def SyncSchemaManager.add_column (st : DbState) (key : String) (column_name : String)
    (column_type : SqlType) : DbState :=
  match lookup_table st key with
  | some td => set_table st key { td with columns := td.columns ++ [(column_name, column_type)] }
  | Option.none => st

/-- `SyncSchemaManager.ensure_columns` (schema.py:574-584): add every
required column missing from the table, one ALTER at a time.  (The source
iterates a Python set difference; the model iterates in the order of the
required-column dict, which no claim observes.) -/
def SyncSchemaManager.ensure_columns (st : DbState) (key : String)
    (columns : List (String × SqlType)) : DbState :=
  match lookup_table st key with
  | some td =>
    let existing := td.columns.map Prod.fst
    (columns.filter (fun c => !existing.contains c.1)).foldl
      (fun s c => SyncSchemaManager.add_column s key c.1 c.2) st
  | Option.none => st

/-- Unordered column-set equality used for index matching
(schema.py:777-793; the single-column and compound branches of the source
perform the same set comparison). -/
def list_set_eq (a b : List String) : Bool :=
  a.all (fun x => b.contains x) && b.all (fun x => a.contains x)

/-- `SyncSchemaManager.index_exists` (schema.py:754-793): re-reflect, find
the table under the qualified or bare key, and compare the requested
column set against each index column set. -/
def SyncSchemaManager.index_exists (cfg : DbCfg) (st : DbState) (table_name : String)
    (columns : List String) : Bool :=
  match resolve_table_key cfg.schema_name st table_name with
  | Option.none => false
  | some key =>
    match lookup_table st key with
    | Option.none => false
    | some td => td.indexes.any (fun idx => list_set_eq columns idx.2)

/-- `SyncSchemaManager.create_index` (schema.py:676-752): empty column
lists raise ValueError; each column must exist in the passed table object;
the name defaults to the generated deterministic name; an existing index
over the same column set short-circuits; otherwise the index is created
with checkfirst semantics (skipped when an index of the same name already
exists).  The Bool of the result records whether a CREATE INDEX statement
was actually executed.  The MySQL text-prefix options affect only
backend-side index options and are not part of the state. -/
def SyncSchemaManager.create_index (cfg : DbCfg) (st : DbState) (table : TableData)
    (columns : List String) (name : Option String := Option.none) (unique : Bool := false) :
    DbState × Except DbError (String × Bool) :=
  if columns.isEmpty then (st, .error (.value_error "columns list cannot be empty"))
  else
    let table_cols := table.columns.map Prod.fst
    match columns.find? (fun c => !table_cols.contains c) with
    | some bad => (st, .error (.column_not_found bad table.name))
    | Option.none =>
      let index_name := name.getD (SyncSchemaManager.generate_index_name table.name columns)
      if SyncSchemaManager.index_exists cfg st table.name columns then
        (st, .ok (index_name, false))
      else
        match resolve_table_key cfg.schema_name st table.name with
        | Option.none =>
          (st, .error (.schema_error ("Failed to create index on table " ++ table.name)
            (some table.name)))
        | some key =>
          match lookup_table st key with
          | Option.none =>
            (st, .error (.schema_error ("Failed to create index on table " ++ table.name)
              (some table.name)))
          | some td =>
            if td.indexes.any (fun idx => idx.1 == index_name) then
              (st, .ok (index_name, false))
            else
              (set_table st key { td with indexes := td.indexes ++ [(index_name, columns)] },
                .ok (index_name, true))

/-- Python `dict.update`: entries of `overrides` replace same-key entries of
`base` in place and new keys are appended. -/
def dict_update (base overrides : List (String × SqlType)) : List (String × SqlType) :=
  base.map (fun kv => (kv.1, (overrides.lookup kv.1).getD kv.2)) ++
    overrides.filter (fun kv => !(base.map Prod.fst).contains kv.1)

/-- SQL UPDATE ... SET applied to one stored row: listed values replace the
stored ones; values for columns the row does not yet carry are added. -/
def apply_values (r : Row) (vals : Row) : Row :=
  r.map (fun kv => (kv.1, (vals.lookup kv.1).getD kv.2)) ++
    vals.filter (fun kv => !(r.map Prod.fst).contains kv.1)

/-- Result discriminator for `Table.update`: whether an UPDATE statement was
issued and, if so, with which WHERE clause. -/
inductive UpdateOutcome where
  | no_stmt
  | stmt_exec (where_clause : SqlClause)

/-- The statement-execution tail of `Table.insert` (sync_core.py:422-432):
append the row and return the primary key — the row value for UUID/CUSTOM
kinds, the backend auto-increment value for Integer (modelled as the next
row ordinal of a sequentially filled table; no claim relies on it).
Also returns the final state of the caller's row mapping. -/
def Table.insert_exec (cfg : DbCfg) (st : DbState) (table_name : String) (key : String)
    (row : Row) : DbState × Except DbError (PyValue × Row) :=
  match lookup_table st key with
  | Option.none =>
    (st, .error (.schema_error ("Failed to create table " ++ table_name) (some table_name)))
  | some td =>
    let pk_col := cfg.pk.column_name
    let pkv := if cfg.pk.pk_type ≠ PkType.integer then (row.lookup pk_col).getD PyValue.none
      else .int (td.rows.length + 1)
    (set_table st key { td with rows := td.rows ++ [row] }, .ok (pkv, row))

/-- `Table.insert` (sync_core.py:366-432).  The result carries the primary
key together with the caller's row mapping as it stands after the call
(the source mutates the argument dict in place when it injects a generated
primary key). -/
def Table.insert (cfg : DbCfg) (st : DbState) (table_name : String) (row : Row)
    (ensure : Option Bool := Option.none)
    (types : Option (List (String × SqlType)) := Option.none) :
    DbState × Except DbError (PyValue × Row) :=
  if cfg.read_only then (st, .error (.read_only_error "INSERT not allowed in read-only mode"))
  else
    let ens := ensure.getD cfg.ensure_schema
    match SyncSchemaManager.get_table cfg st table_name ens
        (if ens then some cfg.pk else Option.none) with
    | (st2, .error e) => (st2, .error e)
    | (st2, .ok key) =>
      let pk_col := cfg.pk.column_name
      match (if (row.lookup pk_col).isNone then cfg.pk.generator else Option.none) with
      | some g =>
        let row2 := row ++ [(pk_col, g st2.gen_ctr)]
        let st3 := { st2 with gen_ctr := st2.gen_ctr + 1 }
        if ens then
          match TypeInference.infer_types_from_row row2 (some cfg.dialect) with
          | .error e => (st3, .error e)
          | .ok inferred =>
            Table.insert_exec cfg
              (SyncSchemaManager.ensure_columns st3 key (dict_update inferred (types.getD [])))
              table_name key row2
        else Table.insert_exec cfg st3 table_name key row2
      | Option.none =>
        if ens then
          match TypeInference.infer_types_from_row row (some cfg.dialect) with
          | .error e => (st2, .error e)
          | .ok inferred =>
            Table.insert_exec cfg
              (SyncSchemaManager.ensure_columns st2 key (dict_update inferred (types.getD [])))
              table_name key row
        else Table.insert_exec cfg st2 table_name key row

/-- `Table.insert_many` (sync_core.py:434-486): the read-only gate first,
then the empty-batch shortcut; `get_table` is called without the database
primary-key configuration; types are inferred from the first row only; no
primary-key value is ever generated or injected for any row.  Chunked
execution totals `len(rows)`; chunking itself only batches statements and
is invisible in the state. -/
def Table.insert_many (cfg : DbCfg) (st : DbState) (table_name : String) (rows : List Row)
    (ensure : Option Bool := Option.none) (chunk_size : Nat := 1000) :
    DbState × Except DbError Nat :=
  if cfg.read_only then (st, .error (.read_only_error "INSERT not allowed in read-only mode"))
  else if rows.isEmpty then (st, .ok 0)
  else
    let ens := ensure.getD cfg.ensure_schema
    match SyncSchemaManager.get_table cfg st table_name ens Option.none with
    | (st2, .error e) => (st2, .error e)
    | (st2, .ok key) =>
      let exec := fun (s : DbState) =>
        match lookup_table s key with
        | Option.none =>
          (s, Except.error (DbError.schema_error ("Failed to create table " ++ table_name)
            (some table_name)))
        | some td => (set_table s key { td with rows := td.rows ++ rows }, .ok rows.length)
      if ens then
        match TypeInference.infer_types_from_row (rows.headD []) (some cfg.dialect) with
        | .error e => (st2, .error e)
        | .ok inferred => exec (SyncSchemaManager.ensure_columns st2 key inferred)
      else exec st2

/-- `Table.find` (sync_core.py:488-537): resolve the table with the
database ensure-schema default and no primary-key configuration, build the
WHERE clause, validate any order-by spec, and return the matching rows
after offset/limit (a limit of 0 is falsy in the source and means
unlimited).  The backend sort order itself is outside the modelled
fragment; order-by column validation is modelled. -/
def Table.find (cfg : DbCfg) (st : DbState) (table_name : String)
    (limit : Option Nat := Option.none) (offset : Nat := 0)
    (order_by : Option (List String) := Option.none)
    (filters : List (String × PyValue) := []) : DbState × Except DbError (List Row) :=
  match SyncSchemaManager.get_table cfg st table_name cfg.ensure_schema Option.none with
  | (st2, .error e) => (st2, .error e)
  | (st2, .ok key) =>
    match lookup_table st2 key with
    | Option.none =>
      (st2, .error (.schema_error ("Failed to create table " ++ table_name) (some table_name)))
    | some td =>
      match FilterBuilder.build td filters with
      | .error e => (st2, .error e)
      | .ok where_clause =>
        match (match order_by with
          | some ob => (FilterBuilder.parse_order_by td ob).map (fun _ => ())
          | Option.none => .ok ()) with
        | .error e => (st2, .error e)
        | .ok _ =>
          let matched := match where_clause with
            | some p => td.rows.filter (fun r => p.row_matches r)
            | Option.none => td.rows
          let paged := matched.drop offset
          let paged := match limit with
            | some n => if n ≠ 0 then paged.take n else paged
            | Option.none => paged
          (st2, .ok paged)

/-- `Table.find_one` (sync_core.py:539-554): `find` with limit 1, first row
or none. -/
def Table.find_one (cfg : DbCfg) (st : DbState) (table_name : String)
    (filters : List (String × PyValue) := []) : DbState × Except DbError (Option Row) :=
  match Table.find cfg st table_name (some 1) 0 Option.none filters with
  | (st2, .error e) => (st2, .error e)
  | (st2, .ok rows) => (st2, .ok rows.head?)

/-- `Table.count` (sync_core.py:570-598): same clause-building path, COUNT
of the matching rows; no read-only gate. -/
def Table.count (cfg : DbCfg) (st : DbState) (table_name : String)
    (filters : List (String × PyValue) := []) : DbState × Except DbError Nat :=
  match SyncSchemaManager.get_table cfg st table_name cfg.ensure_schema Option.none with
  | (st2, .error e) => (st2, .error e)
  | (st2, .ok key) =>
    match lookup_table st2 key with
    | Option.none =>
      (st2, .error (.schema_error ("Failed to create table " ++ table_name) (some table_name)))
    | some td =>
      match FilterBuilder.build td filters with
      | .error e => (st2, .error e)
      | .ok where_clause =>
        match where_clause with
        | some p => (st2, .ok (td.rows.filter (fun r => p.row_matches r)).length)
        | Option.none => (st2, .ok td.rows.length)

/-- The statement-execution tail of `Table.update`: UPDATE rows matching
the WHERE clause with the given values, reporting the rowcount. -/
def Table.update_exec (st : DbState) (key : String) (td : TableData) (row : Row)
    (where_clause : SqlClause) : DbState × Except DbError (Nat × UpdateOutcome) :=
  let new_rows := td.rows.map
    (fun r => if where_clause.row_matches r then apply_values r row else r)
  (set_table st key { td with rows := new_rows },
   .ok ((td.rows.filter (fun r => where_clause.row_matches r)).length,
        .stmt_exec where_clause))

/-- The shared WHERE-building and execution tail of `Table.update`
(sync_core.py:639-650): a failed build propagates, a `None` WHERE clause
raises QueryError, otherwise the UPDATE statement runs. -/
def Table.update_where_exec (st : DbState) (key : String) (td : TableData) (row2 : Row)
    (filters2 : List (String × PyValue)) : DbState × Except DbError (Nat × UpdateOutcome) :=
  match FilterBuilder.build td filters2 with
  | .error e => (st, .error e)
  | .ok Option.none => (st, .error (.query "UPDATE requires WHERE clause (filters or keys)"))
  | .ok (some where_clause) => Table.update_exec st key td row2 where_clause

/-- `Table.update` (sync_core.py:600-650).  With a truthy `keys` list (the
`match` mirrors Python `if keys:`), keys that are not existing columns or
are absent from `row` are dropped, the remaining keys become the equality
filters (discarding any passed filters), and all key names are removed
from the written values; an empty value set returns 0 without a statement;
a `None` WHERE clause raises QueryError. -/
def Table.update (cfg : DbCfg) (st : DbState) (table_name : String) (row : Row)
    (keys : Option (List String) := Option.none)
    (filters : List (String × PyValue) := []) : DbState × Except DbError (Nat × UpdateOutcome) :=
  if cfg.read_only then (st, .error (.read_only_error "UPDATE not allowed in read-only mode"))
  else
    match SyncSchemaManager.get_table cfg st table_name cfg.ensure_schema Option.none with
    | (st2, .error e) => (st2, .error e)
    | (st2, .ok key) =>
      match lookup_table st2 key with
      | Option.none =>
        (st2, .error (.schema_error ("Failed to create table " ++ table_name) (some table_name)))
      | some td =>
        match keys with
        | some (k :: krest) =>
          let ks := k :: krest
          let table_cols := td.columns.map Prod.fst
          let valid_keys := ks.filter (fun k2 => table_cols.contains k2 && (row.lookup k2).isSome)
          let filters2 := valid_keys.map (fun k2 => (k2, (row.lookup k2).getD PyValue.none))
          let row2 := row.filter (fun kv => !ks.contains kv.1)
          if row2.isEmpty then (st2, .ok (0, .no_stmt))
          else Table.update_where_exec st2 key td row2 filters2
        | _ => Table.update_where_exec st2 key td row filters

/-- `Table.delete` (sync_core.py:803-833): read-only gate, then zero
filters raise QueryError, then build and execute.  (An operator-mapping
filter with no operators builds a `None` clause; `delete(...).where(None)`
is a host-level SQLAlchemy argument error, modelled as `value_error`.) -/
def Table.delete (cfg : DbCfg) (st : DbState) (table_name : String)
    (filters : List (String × PyValue) := []) : DbState × Except DbError Nat :=
  if cfg.read_only then (st, .error (.read_only_error "DELETE not allowed in read-only mode"))
  else if filters.isEmpty then (st, .error (.query "DELETE requires WHERE clause"))
  else
    match SyncSchemaManager.get_table cfg st table_name cfg.ensure_schema Option.none with
    | (st2, .error e) => (st2, .error e)
    | (st2, .ok key) =>
      match lookup_table st2 key with
      | Option.none =>
        (st2, .error (.schema_error ("Failed to create table " ++ table_name) (some table_name)))
      | some td =>
        match FilterBuilder.build td filters with
        | .error e => (st2, .error e)
        | .ok Option.none => (st2, .error (.value_error "whereclause is None"))
        | .ok (some where_clause) =>
          (set_table st2 key
            { td with rows := td.rows.filter (fun r => !where_clause.row_matches r) },
           .ok (td.rows.filter (fun r => where_clause.row_matches r)).length)

/-- `Table.create_index` (sync_core.py:875-930): resolve the table (with the
database ensure-schema default and no primary-key configuration) and pass
through to the schema manager.  The string-to-list column normalization is
a host-typing concern. -/
def Table.create_index (cfg : DbCfg) (st : DbState) (table_name : String)
    (columns : List String) (name : Option String := Option.none) (unique : Bool := false) :
    DbState × Except DbError String :=
  match SyncSchemaManager.get_table cfg st table_name cfg.ensure_schema Option.none with
  | (st2, .error e) => (st2, .error e)
  | (st2, .ok key) =>
    match lookup_table st2 key with
    | Option.none =>
      (st2, .error (.schema_error ("Failed to create table " ++ table_name) (some table_name)))
    | some td =>
      match SyncSchemaManager.create_index cfg st2 td columns name unique with
      | (st3, .error e) => (st3, .error e)
      | (st3, .ok (n, _)) => (st3, .ok n)

/-- `Table.has_index` (sync_core.py:932-961). -/
def Table.has_index (cfg : DbCfg) (st : DbState) (table_name : String)
    (columns : List String) : DbState × Except DbError Bool :=
  match SyncSchemaManager.get_table cfg st table_name cfg.ensure_schema Option.none with
  | (st2, .error e) => (st2, .error e)
  | (st2, .ok _) => (st2, .ok (SyncSchemaManager.index_exists cfg st2 table_name columns))

/-- The ensure block shared by `Table.upsert` and `Table.upsert_many`
(sync_core.py:690-714 and 771-795): get-or-create the table with the
database primary-key configuration, infer and ensure columns from the
(first) row with per-call type overrides winning, and auto-create an index
over the keys that exist among the pre-ensure table columns or the row
keys. -/
def Table.upsert_ensure (cfg : DbCfg) (st : DbState) (table_name : String) (row : Row)
    (keys : List String) (types : Option (List (String × SqlType))) :
    DbState × Except DbError Unit :=
  match SyncSchemaManager.get_table cfg st table_name true (some cfg.pk) with
  | (st2, .error e) => (st2, .error e)
  | (st2, .ok key) =>
    match lookup_table st2 key with
    | Option.none =>
      (st2, .error (.schema_error ("Failed to create table " ++ table_name) (some table_name)))
    | some td0 =>
      match TypeInference.infer_types_from_row row (some cfg.dialect) with
      | .error e => (st2, .error e)
      | .ok inferred =>
        let st3 := SyncSchemaManager.ensure_columns st2 key (dict_update inferred (types.getD []))
        let table_cols := (td0.columns.map Prod.fst) ++ row.map Prod.fst
        let index_keys := keys.filter (fun k => table_cols.contains k)
        if index_keys.isEmpty then (st3, .ok ())
        else
          match Table.create_index cfg st3 table_name index_keys Option.none false with
          | (st4, .error e) => (st4, .error e)
          | (st4, .ok _) => (st4, .ok ())

/-- `Table.upsert` (sync_core.py:652-731): read-only gate; optional ensure
block; look up an existing row by equality filters over the original keys
(missing row keys become None-valued filters); a QueryError from that
lookup — and only that error class — is swallowed into "no existing row";
a truthy existing row is updated via `update(row, keys=keys, ensure=ensure)`
(whose `ensure` keyword lands in the `**filters` of `update`) and the value
under the literal `id` field of the found row is returned; otherwise the
row is inserted and the new primary key returned. -/
def Table.upsert (cfg : DbCfg) (st : DbState) (table_name : String) (row : Row)
    (keys : List String) (ensure : Option Bool := Option.none)
    (types : Option (List (String × SqlType)) := Option.none) :
    DbState × Except DbError PyValue :=
  if cfg.read_only then (st, .error (.read_only_error "UPSERT not allowed in read-only mode"))
  else
    let ens := ensure.getD cfg.ensure_schema
    match (if ens then Table.upsert_ensure cfg st table_name row keys types
           else (st, .ok ())) with
    | (stE, .error e) => (stE, .error e)
    | (stE, .ok _) =>
      let filters := keys.map (fun k => (k, (row.lookup k).getD PyValue.none))
      let after_lookup : DbState × Except DbError (Option Row) :=
        match Table.find_one cfg stE table_name filters with
        | (st5, .error (.query _)) => (st5, .ok Option.none)
        | (st5, .error e) => (st5, .error e)
        | (st5, .ok existing) => (st5, .ok existing)
      match after_lookup with
      | (st5, .error e) => (st5, .error e)
      | (st5, .ok existing) =>
        match existing with
        | some ex =>
          if ex.isEmpty then
            match Table.insert cfg st5 table_name row (some ens) types with
            | (st6, .error e) => (st6, .error e)
            | (st6, .ok (pkv, _)) => (st6, .ok pkv)
          else
            match Table.update cfg st5 table_name row (some keys) [("ensure", .bool ens)] with
            | (st6, .error e) => (st6, .error e)
            | (st6, .ok _) => (st6, .ok ((ex.lookup "id").getD PyValue.none))
        | Option.none =>
          match Table.insert cfg st5 table_name row (some ens) types with
          | (st6, .error e) => (st6, .error e)
          | (st6, .ok (pkv, _)) => (st6, .ok pkv)

/-- The per-row loop of `Table.upsert_many` (sync_core.py:797-799): each row
is upserted with ensuring disabled; an exception aborts the loop, leaving
earlier rows applied. -/
def Table.upsert_many_loop (cfg : DbCfg) (table_name : String) (keys : List String)
    (types : Option (List (String × SqlType))) :
    DbState → List Row → DbState × Except DbError Unit
  | st, [] => (st, .ok ())
  | st, r :: rest =>
    match Table.upsert cfg st table_name r keys (some false) types with
    | (st2, .error e) => (st2, .error e)
    | (st2, .ok _) => Table.upsert_many_loop cfg table_name keys types st2 rest

/-- `Table.upsert_many` (sync_core.py:733-801): an empty batch returns 0
before the read-only gate; otherwise the gate fires, the ensure block runs
once for the first row, and each row is upserted with ensuring disabled.
The `chunk_size` parameter is accepted and unused, as in the source. -/
def Table.upsert_many (cfg : DbCfg) (st : DbState) (table_name : String) (rows : List Row)
    (keys : List String) (chunk_size : Nat := 1000) (ensure : Option Bool := Option.none)
    (types : Option (List (String × SqlType)) := Option.none) :
    DbState × Except DbError Nat :=
  if rows.isEmpty then (st, .ok 0)
  else if cfg.read_only then
    (st, .error (.read_only_error "UPSERT not allowed in read-only mode"))
  else
    let ens := ensure.getD cfg.ensure_schema
    match (if ens then Table.upsert_ensure cfg st table_name (rows.headD []) keys types
           else (st, .ok ())) with
    | (stE, .error e) => (stE, .error e)
    | (stE, .ok _) =>
      match Table.upsert_many_loop cfg table_name keys types stE rows with
      | (stL, .error e) => (stL, .error e)
      | (stL, .ok _) => (stL, .ok rows.length)


/-- Fixture: default configuration (Integer `id` primary key, sqlite). -/
def fix_cfg : DbCfg := {}

/-- Fixture: read-only configuration. -/
def fix_cfg_ro : DbCfg := { read_only := true }

/-- Fixture: a deterministic stand-in for the uuid4 generator stream. -/
def fix_gen : Nat → PyValue := fun n => .str ("uuid-" ++ toString n)

/-- Fixture: UUID primary-key configuration. -/
def fix_cfg_uuid : DbCfg :=
  { pk := { pk_type := .uuid, column_name := "id", generator := some fix_gen,
            sqlalchemy_type := .string (some 36), autoincrement := false } }

/-- Fixture: Integer primary key under the customized column name `user_id`. -/
def fix_cfg_userpk : DbCfg :=
  { pk := { pk_type := .integer, column_name := "user_id", generator := Option.none,
            sqlalchemy_type := .integer, autoincrement := true } }

/-- Fixture: a `people` table holding one row {id 1, name John, age 30}. -/
def fix_td_people : TableData :=
  ⟨"people", [("id", .integer), ("name", .text), ("age", .integer)], [],
   [[("id", .int 1), ("name", .str "John"), ("age", .int 30)]]⟩

/-- Fixture: state with just the `people` table. -/
def fix_st : DbState := ⟨[("people", fix_td_people)], 0⟩

/-- Fixture: a `users` table with customized primary-key column `user_id`. -/
def fix_td_users : TableData :=
  ⟨"users", [("user_id", .integer), ("name", .text), ("age", .integer)], [],
   [[("user_id", .int 7), ("name", .str "John"), ("age", .int 30)]]⟩

/-- Fixture: state with just the `users` table. -/
def fix_st_users : DbState := ⟨[("users", fix_td_users)], 0⟩

/-- Fixture: an empty `t` table for the UUID scenarios. -/
def fix_td_t : TableData := ⟨"t", [("id", .string (some 36)), ("name", .text)], [], []⟩

/-- Fixture: state with just the empty `t` table. -/
def fix_st_t : DbState := ⟨[("t", fix_td_t)], 0⟩

/-- Fixture: a `t` table where the name `idx_t_email` is already taken by an
index over a different column set. -/
def fix_td_idx : TableData :=
  ⟨"t", [("id", .integer), ("email", .text), ("other", .text)],
   [("idx_t_email", ["other"])], []⟩

/-- Fixture: state with just the name-collision table. -/
def fix_st_idx : DbState := ⟨[("t", fix_td_idx)], 0⟩

/-- On a finite exponent with a coefficient other than the single digit 0,
the code computation agrees with the specification formula. -/
theorem calc_decimal_fin_eq_spec (sg : Nat) (ds : List Nat) (e : Int) (hne : ds ≠ [0]) :
    TypeInference.calculate_decimal_precision ⟨sg, ds, .fin e⟩ =
      .ok (some (spec_decimal_numeric ds e)) := by
  simp only [TypeInference.calculate_decimal_precision, spec_decimal_numeric]
  rw [if_neg (by simp), if_neg hne]
  by_cases he : e ≥ 0
  · simp only [if_pos he]
    split <;> rfl
  · have habs : |e| = -e := abs_of_neg (by omega)
    simp only [if_neg he, habs]
    split <;> rfl

/-- C3 (amended): `infer_type` follows the ordered first-match rule list:
null maps to Text; a boolean to Boolean (disjoint from the integer case, so
the boolean-before-integer ordering of the source is preserved); an integer
to Integer; an exact decimal to Numeric(precision, scale) per the
specification formula, with a single-zero-digit coefficient mapping to (1,0)
and precision capped at 38 (scale capped only then); infinity and quiet NaN
fall back to Float, while a signaling NaN escapes the `('F','n')` test and
(unless caught by the zero rule) the exponent comparison raises a host
TypeError instead of producing Float; a float to Float; a datetime to
DateTime; a date to Date; text and byte values to Text; mappings and
sequences to the binary JSON flavor exactly when the dialect hint is
postgresql and generic JSON otherwise; any other value raises a
type-inference error rather than defaulting. -/
theorem c3_infer_type_rule_list (dialect : Option String) :
    (TypeInference.infer_type PyValue.none dialect = .ok .text) ∧
    (∀ b, TypeInference.infer_type (.bool b) dialect = .ok .boolean) ∧
    (∀ n, TypeInference.infer_type (.int n) dialect = .ok .integer) ∧
    (∀ sg ds, TypeInference.infer_type (.decimal ⟨sg, ds, .inf⟩) dialect = .ok .float) ∧
    (∀ sg ds, TypeInference.infer_type (.decimal ⟨sg, ds, .qnan⟩) dialect = .ok .float) ∧
    (∀ sg e, TypeInference.infer_type (.decimal ⟨sg, [0], .fin e⟩) dialect =
        .ok (.numeric (some 1) (some 0))) ∧
    (∀ sg ds e, ds ≠ [0] → TypeInference.infer_type (.decimal ⟨sg, ds, .fin e⟩) dialect =
        .ok (.numeric (some (spec_decimal_numeric ds e).1) (some (spec_decimal_numeric ds e).2))) ∧
    (∀ sg ds, ds ≠ [0] → ∃ m, TypeInference.infer_type (.decimal ⟨sg, ds, .snan⟩) dialect =
        .error (.host_type_error m)) ∧
    (∀ x, TypeInference.infer_type (.float x) dialect = .ok .float) ∧
    (∀ t, TypeInference.infer_type (.datetime t) dialect = .ok .datetime) ∧
    (∀ t, TypeInference.infer_type (.date t) dialect = .ok .date) ∧
    (∀ s, TypeInference.infer_type (.str s) dialect = .ok .text) ∧
    (∀ bs, TypeInference.infer_type (.bytes bs) dialect = .ok .text) ∧
    (∀ es, TypeInference.infer_type (.dict es) dialect =
        .ok (if dialect = some "postgresql" then .jsonb else .json)) ∧
    (∀ xs, TypeInference.infer_type (.list xs) dialect =
        .ok (if dialect = some "postgresql" then .jsonb else .json)) ∧
    (∀ tn, TypeInference.infer_type (.other tn) dialect =
        .error (.type_inference ("Cannot infer SQLAlchemy type for Python type: " ++ tn))) := by
  refine ⟨rfl, fun _ => rfl, fun _ => rfl, fun sg ds => ?_, fun sg ds => ?_,
    fun sg e => ?_, fun sg ds e hne => ?_, fun sg ds hne => ?_, fun _ => rfl,
    fun _ => rfl, fun _ => rfl, fun _ => rfl, fun _ => rfl, fun _ => rfl,
    fun _ => rfl, fun _ => rfl⟩
  · have hc : TypeInference.calculate_decimal_precision ⟨sg, ds, .inf⟩ = .ok Option.none := by
      simp [TypeInference.calculate_decimal_precision]
    simp only [TypeInference.infer_type, hc]
  · have hc : TypeInference.calculate_decimal_precision ⟨sg, ds, .qnan⟩ = .ok Option.none := by
      simp [TypeInference.calculate_decimal_precision]
    simp only [TypeInference.infer_type, hc]
  · have hc : TypeInference.calculate_decimal_precision ⟨sg, [0], .fin e⟩ =
        .ok (some (1, 0)) := by
      simp [TypeInference.calculate_decimal_precision]
    simp only [TypeInference.infer_type, hc]
  · rcases hX : spec_decimal_numeric ds e with ⟨p, s⟩
    simp only [TypeInference.infer_type, calc_decimal_fin_eq_spec sg ds e hne, hX]
  · refine ⟨"not supported between instances of str and int", ?_⟩
    have hc : TypeInference.calculate_decimal_precision ⟨sg, ds, .snan⟩ =
        .error (.host_type_error "not supported between instances of str and int") := by
      simp only [TypeInference.calculate_decimal_precision]
      rw [if_neg (by simp), if_neg hne]
    simp only [TypeInference.infer_type, hc]

/-- Witness for C3: a concrete finite decimal, `Decimal("123.45")`, i.e. the
tuple (0, [1,2,3,4,5], -2), infers as Numeric(5, 2). -/
theorem c3_infer_type_rule_list_witness :
    TypeInference.infer_type (.decimal ⟨0, [1, 2, 3, 4, 5], .fin (-2)⟩) Option.none =
      .ok (.numeric (some 5) (some 2)) := by
  have h := (c3_infer_type_rule_list Option.none).2.2.2.2.2.2.1 0 [1, 2, 3, 4, 5] (-2)
    (by decide)
  have hs : spec_decimal_numeric [1, 2, 3, 4, 5] (-2) = (5, 2) := by decide
  rw [hs] at h
  exact h

/-- Counterexample for C3 as frozen: a signaling NaN — `Decimal("sNaN")`,
whose `as_tuple()` is (0, (), 'N') — is a NaN, yet `infer_type` does not fall
back to Float: the precision computation compares the marker exponent with 0
and fails with a host TypeError. -/
theorem c3_counterexample :
    TypeInference.infer_type (.decimal ⟨0, [], .snan⟩) Option.none =
      .error (.host_type_error "not supported between instances of str and int") ∧
    TypeInference.infer_type (.decimal ⟨0, [], .snan⟩) Option.none ≠ .ok SqlType.float := by
  refine ⟨rfl, ?_⟩
  intro h
  rw [show TypeInference.infer_type (.decimal ⟨0, [], .snan⟩) Option.none =
      .error (.host_type_error "not supported between instances of str and int") from rfl] at h
  exact Except.noConfusion h

/-- C4: `merge_types` is commutative on the widening pairs and merges two
fully-specified Numeric descriptors component-wise: Integer/Float merge to
Float and Date/DateTime to DateTime in either order; two Numerics take the
maximum precision and maximum scale, raising precision to the scale when
needed, so Numeric(10,2) and Numeric(8,3) merge to Numeric(10,3) in either
argument order. -/
theorem c4_merge_types_commutes :
    TypeInference.merge_types .integer .float = .float ∧
    TypeInference.merge_types .float .integer = .float ∧
    TypeInference.merge_types .date .datetime = .datetime ∧
    TypeInference.merge_types .datetime .date = .datetime ∧
    (∀ p1 s1 p2 s2 : Int,
      TypeInference.merge_types (.numeric (some p1) (some s1)) (.numeric (some p2) (some s2)) =
        .numeric (some (max (max p1 p2) (max s1 s2))) (some (max s1 s2)) ∧
      TypeInference.merge_types (.numeric (some p1) (some s1)) (.numeric (some p2) (some s2)) =
        TypeInference.merge_types (.numeric (some p2) (some s2)) (.numeric (some p1) (some s1))) ∧
    TypeInference.merge_types (.numeric (some 10) (some 2)) (.numeric (some 8) (some 3)) =
      .numeric (some 10) (some 3) ∧
    TypeInference.merge_types (.numeric (some 8) (some 3)) (.numeric (some 10) (some 2)) =
      .numeric (some 10) (some 3) := by
  have key : ∀ p1 s1 p2 s2 : Int,
      TypeInference.merge_types (.numeric (some p1) (some s1)) (.numeric (some p2) (some s2)) =
        .numeric (some (max (max p1 p2) (max s1 s2))) (some (max s1 s2)) := by
    intro p1 s1 p2 s2
    show SqlType.numeric
        (some (if max p1 p2 < max s1 s2 then max s1 s2 else max p1 p2)) (some (max s1 s2)) = _
    have h3 : (if max p1 p2 < max s1 s2 then max s1 s2 else max p1 p2) =
        max (max p1 p2) (max s1 s2) := by
      rcases le_or_lt (max s1 s2) (max p1 p2) with h | h
      · rw [if_neg (not_lt.mpr h), max_eq_left h]
      · rw [if_pos h, max_eq_right h.le]
    rw [h3]
  refine ⟨rfl, rfl, rfl, rfl, fun p1 s1 p2 s2 => ⟨key p1 s1 p2 s2, ?_⟩, by decide, by decide⟩
  rw [key p1 s1 p2 s2, key p2 s2 p1 s1, max_comm p2 p1, max_comm s2 s1]

theorem le_bytes_length (n : Nat) : ∀ x : Nat, (le_bytes n x).length = n := by
  induction n with
  | zero => intro x; rfl
  | succ m ih => intro x; simp [le_bytes, ih]

theorem md5_bytes_length (msg : List Nat) : (md5_bytes msg).length = 16 := by
  simp [md5_bytes, le_bytes_length]

theorem md5_hex_length (msg : List Nat) : (md5_hex msg).length = 32 := by
  have h : ∀ bs : List Nat, ((bs.map byte_hex).flatten).length = 2 * bs.length := by
    intro bs
    induction bs with
    | nil => rfl
    | cons b rest ih =>
      simp only [List.map_cons, List.flatten_cons, List.length_append, ih, List.length_cons]
      simp [byte_hex]
      omega
  rw [md5_hex, h, md5_bytes_length]


/-- C9: the generated index name is a deterministic pure function of table
name and column list; it is `idx_<table>_<col1>_..._<coln>` whenever that
base name has at most 63 characters, and otherwise the base name truncated
to 63 - 8 - 1 = 54 characters followed by an underscore and the 8-character
hex MD5 digest of the full untruncated base name; the result never exceeds
63 characters and always retains the surviving (54-character) prefix of the
base name. -/
theorem c9_generate_index_name (table_name : String) (columns : List String) :
    (SyncSchemaManager.generate_index_name table_name columns).data =
      (if (index_base_name table_name.data (columns.map String.data)).length ≤ 63 then
        index_base_name table_name.data (columns.map String.data)
      else
        (index_base_name table_name.data (columns.map String.data)).take 54 ++ "_".data ++
          (md5_hex (utf8_encode (index_base_name table_name.data (columns.map String.data)))).take 8) ∧
    ((md5_hex (utf8_encode (index_base_name table_name.data (columns.map String.data)))).take 8).length
      = 8 ∧
    (SyncSchemaManager.generate_index_name table_name columns).data.length ≤ 63 ∧
    (index_base_name table_name.data (columns.map String.data)).take 54 <+:
      (SyncSchemaManager.generate_index_name table_name columns).data := by
  have hlen8 : ∀ bs : List Nat, ((md5_hex bs).take 8).length = 8 := by
    intro bs
    rw [List.length_take, md5_hex_length]
    decide
  have hch : (SyncSchemaManager.generate_index_name table_name columns).data =
      (if (index_base_name table_name.data (columns.map String.data)).length ≤ 63 then
        index_base_name table_name.data (columns.map String.data)
      else
        (index_base_name table_name.data (columns.map String.data)).take 54 ++ "_".data ++
          (md5_hex (utf8_encode (index_base_name table_name.data (columns.map String.data)))).take 8)
      := by
    show generate_index_name_chars table_name.data (columns.map String.data) = _
    simp only [generate_index_name_chars]
    split
    · rfl
    · rw [hlen8]
  refine ⟨hch, hlen8 _, ?_, ?_⟩
  · rw [hch]
    split <;> rename_i h
    · exact h
    · simp only [List.length_append, List.length_take, hlen8, List.length_singleton]
      omega
  · rw [hch]
    split
    · exact List.take_prefix 54 _
    · rw [List.append_assoc]
      exact List.prefix_append _ _
theorem list_lookup_setmap (l : List (String × TableData)) (k k2 : String) (td : TableData) :
    (l.map (fun p => if p.1 = k then (k, td) else p)).lookup k2 =
      if k2 = k then (l.lookup k).map (fun _ => td) else l.lookup k2 := by
  induction l with
  | nil => simp
  | cons p rest ih =>
    obtain ⟨a, b⟩ := p
    simp only [List.map_cons]
    by_cases hak : a = k
    · subst hak
      by_cases hk2 : k2 = a
      · subst hk2
        simp [List.lookup_cons]
      · simp [List.lookup_cons, beq_false_of_ne hk2, hk2, ih]
    · by_cases hk2 : k2 = a
      · subst hk2
        simp [List.lookup_cons, hak, beq_false_of_ne (Ne.symm hak), ih]
      · simp [List.lookup_cons, hak, beq_false_of_ne hk2, beq_false_of_ne (Ne.symm hak), ih]

theorem lookup_set_table (st : DbState) (k : String) (td : TableData) (k2 : String) :
    lookup_table (set_table st k td) k2 =
      if k2 = k then (lookup_table st k).map (fun _ => td) else lookup_table st k2 := by
  simp only [lookup_table, set_table]
  exact list_lookup_setmap st.tables k k2 td

theorem lookup_set_self (st : DbState) (k : String) (td td0 : TableData)
    (h : lookup_table st k = some td0) :
    lookup_table (set_table st k td) k = some td := by
  rw [lookup_set_table, if_pos rfl, h]
  rfl

theorem lookup_set_isSome (st : DbState) (k : String) (td : TableData) (k2 : String) :
    (lookup_table (set_table st k td) k2).isSome = (lookup_table st k2).isSome := by
  rw [lookup_set_table]
  split
  · rename_i h
    subst h
    cases lookup_table st k2 <;> rfl
  · rfl

theorem resolve_set_table (sn : Option String) (st : DbState) (k : String) (td : TableData)
    (tn : String) :
    resolve_table_key sn (set_table st k td) tn = resolve_table_key sn st tn := by
  simp [resolve_table_key, lookup_set_isSome]

theorem list_lookup_append_single (r : Row) (a : String) (v : PyValue) (k2 : String)
    (h : k2 ≠ a) : (r ++ [(a, v)]).lookup k2 = r.lookup k2 := by
  induction r with
  | nil => simp [List.lookup_cons, beq_false_of_ne h]
  | cons p rest ih =>
    obtain ⟨c, w⟩ := p
    by_cases hk : k2 = c
    · subst hk
      rw [List.cons_append, List.lookup_cons_self, List.lookup_cons_self]
    · rw [List.cons_append, List.lookup_cons, List.lookup_cons]
      simp only [beq_false_of_ne hk]
      exact ih

theorem op_clauses_cond (column : String) (entries : List (String × PyValue))
    (cs : List SqlClause) (h : op_clauses column entries = .ok cs) :
    ∀ p ∈ cs, SqlClause.cond_count p = 1 := by
  induction entries generalizing cs with
  | nil =>
    simp only [op_clauses] at h
    cases h
    intro p hp
    simp at hp
  | cons e rest ih =>
    obtain ⟨operator, op_value⟩ := e
    simp only [op_clauses] at h
    split at h
    · split at h
      · cases h
      · split at h
        · cases h
        · split at h
          · cases h
          · rename_i cs0 hrec
            cases h
            intro p hp
            rcases List.mem_cons.mp hp with hp | hp
            · subst hp
              rfl
            · exact ih cs0 hrec p hp
    · cases h

theorem build_clauses_cond (table : TableData) (fs : List (String × PyValue))
    (cs : List SqlClause) (h : build_clauses table fs = .ok cs) :
    ∀ p ∈ cs, SqlClause.cond_count p = 1 := by
  induction fs generalizing cs with
  | nil =>
    simp only [build_clauses] at h
    cases h
    intro p hp
    simp at hp
  | cons e rest ih =>
    obtain ⟨column_name, value⟩ := e
    simp only [build_clauses] at h
    split at h
    · split at h
      · split at h
        · cases h
        · split at h
          · cases h
          · rename_i cs1 hop _ cs2 hrec
            cases h
            intro p hp
            rcases List.mem_append.mp hp with hp | hp
            · exact op_clauses_cond _ _ cs1 hop p hp
            · exact ih cs2 hrec p hp
      · split at h
        · cases h
        · rename_i cs2 hrec
          cases h
          intro p hp
          rcases List.mem_cons.mp hp with hp | hp
          · subst hp
            rfl
          · exact ih cs2 hrec p hp
    · cases h

theorem cond_count_list_eq_length (cs : List SqlClause)
    (h : ∀ p ∈ cs, SqlClause.cond_count p = 1) :
    SqlClause.cond_count_list cs = cs.length := by
  induction cs with
  | nil => rfl
  | cons p rest ih =>
    simp only [SqlClause.cond_count_list, List.length_cons]
    rw [h p (List.mem_cons_self p rest), ih (fun q hq => h q (List.mem_cons_of_mem p hq))]
    omega

/-- Every WHERE clause `FilterBuilder.build` returns carries at least one
atomic condition. -/
theorem build_some_cond_pos (table : TableData) (fs : List (String × PyValue))
    (cj : String) (p : SqlClause)
    (h : FilterBuilder.build table fs cj = .ok (some p)) : 1 ≤ p.cond_count := by
  rcases hbc : build_clauses table fs with e | cs
  · cases hemp : fs.isEmpty
    · simp [FilterBuilder.build, hemp, hbc] at h
    · simp [FilterBuilder.build, hemp] at h
  · rcases cs with _ | ⟨c1, cs2⟩
    · cases hemp : fs.isEmpty
      · simp [FilterBuilder.build, hemp, hbc] at h
      · simp [FilterBuilder.build, hemp] at h
    · rcases cs2 with _ | ⟨c2, cs3⟩
      · cases hemp : fs.isEmpty
        · simp only [FilterBuilder.build, hemp, Bool.false_eq_true, if_false, hbc] at h
          simp only [Except.ok.injEq, Option.some.injEq] at h
          subst h
          have hc := build_clauses_cond table fs _ hbc _ (List.mem_singleton_self c1)
          omega
        · simp [FilterBuilder.build, hemp] at h
      · cases hemp : fs.isEmpty
        · have hall := build_clauses_cond table fs _ hbc
          have hlen := cond_count_list_eq_length _ hall
          simp only [FilterBuilder.build, hemp, Bool.false_eq_true, if_false, hbc] at h
          split at h
          · simp only [Except.ok.injEq, Option.some.injEq] at h
            subst h
            simp only [SqlClause.cond_count, hlen, List.length_cons]
            omega
          · split at h
            · simp only [Except.ok.injEq, Option.some.injEq] at h
              subst h
              simp only [SqlClause.cond_count, hlen, List.length_cons]
              omega
            · simp at h
        · simp [FilterBuilder.build, hemp] at h

theorem op_clauses_error_query (column : String) (entries : List (String × PyValue))
    (e : DbError) (h : op_clauses column entries = .error e) : ∃ m, e = .query m := by
  induction entries generalizing e with
  | nil => simp [op_clauses] at h
  | cons p rest ih =>
    obtain ⟨operator, op_value⟩ := p
    simp only [op_clauses] at h
    split at h
    · split at h
      · cases h
        exact ⟨_, rfl⟩
      · split at h
        · cases h
          exact ⟨_, rfl⟩
        · split at h
          · cases h
            exact ih _ (by assumption)
          · cases h
    · cases h
      exact ⟨_, rfl⟩

theorem build_clauses_error_query (table : TableData) (fs : List (String × PyValue))
    (e : DbError) (h : build_clauses table fs = .error e) : ∃ m, e = .query m := by
  induction fs generalizing e with
  | nil => simp [build_clauses] at h
  | cons p rest ih =>
    obtain ⟨column_name, value⟩ := p
    simp only [build_clauses] at h
    split at h
    · split at h
      · split at h
        · cases h
          exact op_clauses_error_query _ _ _ (by assumption)
        · split at h
          · cases h
            exact ih _ (by assumption)
          · cases h
      · split at h
        · cases h
          exact ih _ (by assumption)
        · cases h
    · cases h
      exact ⟨_, rfl⟩

theorem build_error_query (table : TableData) (fs : List (String × PyValue)) (cj : String)
    (e : DbError) (h : FilterBuilder.build table fs cj = .error e) : ∃ m, e = .query m := by
  rcases hbc : build_clauses table fs with e2 | cs
  · cases hemp : fs.isEmpty
    · simp only [FilterBuilder.build, hemp, Bool.false_eq_true, if_false, hbc,
        Except.error.injEq] at h
      subst h
      exact build_clauses_error_query _ _ _ hbc
    · simp [FilterBuilder.build, hemp] at h
  · rcases cs with _ | ⟨c1, cs2⟩
    · cases hemp : fs.isEmpty
      · simp [FilterBuilder.build, hemp, hbc] at h
      · simp [FilterBuilder.build, hemp] at h
    · rcases cs2 with _ | ⟨c2, cs3⟩
      · cases hemp : fs.isEmpty
        · simp [FilterBuilder.build, hemp, hbc] at h
        · simp [FilterBuilder.build, hemp] at h
      · cases hemp : fs.isEmpty
        · simp only [FilterBuilder.build, hemp, Bool.false_eq_true, if_false, hbc] at h
          split at h
          · cases h
          · split at h
            · cases h
            · cases h
              exact ⟨_, rfl⟩
        · simp [FilterBuilder.build, hemp] at h

theorem build_clauses_missing_col (table : TableData) (fs : List (String × PyValue))
    (c : String) (v : PyValue) (hmem : (c, v) ∈ fs)
    (hc : (table.columns.map Prod.fst).contains c = false) :
    ∃ e, build_clauses table fs = .error e := by
  induction fs with
  | nil => simp at hmem
  | cons p rest ih =>
    obtain ⟨column_name, value⟩ := p
    by_cases hcol : (table.columns.map Prod.fst).contains column_name
    · have hmem2 : (c, v) ∈ rest := by
        rcases List.mem_cons.mp hmem with heq | hmem2
        · exfalso
          cases heq
          rw [hcol] at hc
          cases hc
        · exact hmem2
      obtain ⟨e, herr⟩ := ih hmem2
      simp only [build_clauses, hcol, if_true]
      rcases hde : as_dict_entries value with _ | entries
      · simp only [hde, herr]
        exact ⟨e, rfl⟩
      · simp only [hde]
        rcases hop : op_clauses column_name entries with e2 | cs
        · simp only [hop]
          exact ⟨e2, rfl⟩
        · simp only [hop, herr]
          exact ⟨e, rfl⟩
    · simp only [build_clauses, hcol, if_false]
      exact ⟨_, rfl⟩

theorem build_missing_col (table : TableData) (fs : List (String × PyValue)) (cj : String)
    (c : String) (v : PyValue) (hmem : (c, v) ∈ fs)
    (hc : (table.columns.map Prod.fst).contains c = false) :
    ∃ m, FilterBuilder.build table fs cj = .error (.query m) := by
  have hne : fs.isEmpty = false := by
    rcases fs with _ | _
    · simp at hmem
    · rfl
  obtain ⟨e, herr⟩ := build_clauses_missing_col table fs c v hmem hc
  obtain ⟨m, hm⟩ := build_clauses_error_query table fs e herr
  refine ⟨m, ?_⟩
  simp only [FilterBuilder.build, hne, Bool.false_eq_true, if_false, herr, hm]

theorem build_clauses_eq_filters (table : TableData) (fs : List (String × PyValue))
    (hcols : ∀ cf ∈ fs, (table.columns.map Prod.fst).contains cf.1 = true)
    (hnd : ∀ cf ∈ fs, as_dict_entries cf.2 = Option.none) :
    build_clauses table fs = .ok (fs.map (fun cf => SqlClause.cmp .eq cf.1 cf.2)) := by
  induction fs with
  | nil => rfl
  | cons p rest ih =>
    obtain ⟨column_name, value⟩ := p
    have h1 := hcols (column_name, value) (List.mem_cons_self _ _)
    have h2 := hnd (column_name, value) (List.mem_cons_self _ _)
    have ihh := ih (fun cf hcf => hcols cf (List.mem_cons_of_mem _ hcf))
      (fun cf hcf => hnd cf (List.mem_cons_of_mem _ hcf))
    simp only [build_clauses, h1, if_true, h2, ihh, List.map_cons]

theorem update_where_exec_none (st : DbState) (key : String) (td : TableData) (row2 : Row)
    (fs : List (String × PyValue)) (hb : FilterBuilder.build td fs "AND" = .ok Option.none) :
    Table.update_where_exec st key td row2 fs =
      (st, .error (.query "UPDATE requires WHERE clause (filters or keys)")) := by
  simp only [Table.update_where_exec, hb]

theorem update_where_exec_stmt (st : DbState) (key : String) (td : TableData) (row2 : Row)
    (fs : List (String × PyValue)) (st2 : DbState) (n : Nat) (wc : SqlClause)
    (h : Table.update_where_exec st key td row2 fs = (st2, .ok (n, .stmt_exec wc))) :
    1 ≤ wc.cond_count := by
  simp only [Table.update_where_exec] at h
  split at h
  · simp at h
  · simp at h
  · rename_i wc2 heq
    simp only [Table.update_exec, Prod.mk.injEq, Except.ok.injEq] at h
    obtain ⟨-, -, h2⟩ := h
    cases h2
    exact build_some_cond_pos _ _ _ _ heq

/-- C1: `Table.update` with a truthy key list silently drops key names that
are not existing columns or are absent from the row; all key names are
removed from the written values; if no writable values remain the call
returns 0 without issuing a statement; if the surviving keys (which replace
any passed filters) yield no WHERE condition the call fails with a
query-construction error; when conditions survive (scalar key values), an
UPDATE is issued whose WHERE clause has at least one condition — and in
fact every UPDATE statement this operation ever issues has at least one
WHERE condition; with no keys and no filters the call likewise fails; and
`Table.delete` with zero filters always fails with a query-construction
error (before even touching the table). -/
theorem c1_update_delete_where_guard
    (cfg : DbCfg) (st : DbState) (table_name key : String) (td : TableData) (row : Row)
    (ks : List String) (filters : List (String × PyValue))
    (hro : cfg.read_only = false)
    (hres : resolve_table_key cfg.schema_name st table_name = some key)
    (htd : lookup_table st key = some td) :
    (ks ≠ [] → row.filter (fun kv => !ks.contains kv.1) = [] →
      Table.update cfg st table_name row (some ks) filters = (st, .ok (0, .no_stmt))) ∧
    (ks ≠ [] → row.filter (fun kv => !ks.contains kv.1) ≠ [] →
      ks.filter (fun k2 => (td.columns.map Prod.fst).contains k2 && (row.lookup k2).isSome)
        = [] →
      Table.update cfg st table_name row (some ks) filters =
        (st, .error (.query "UPDATE requires WHERE clause (filters or keys)"))) ∧
    (ks ≠ [] → row.filter (fun kv => !ks.contains kv.1) ≠ [] →
      ∀ k0 ks0,
      ks.filter (fun k2 => (td.columns.map Prod.fst).contains k2 && (row.lookup k2).isSome) =
        k0 :: ks0 →
      (∀ k2 ∈ k0 :: ks0, as_dict_entries ((row.lookup k2).getD PyValue.none) = Option.none) →
      ∃ st2 n wc, Table.update cfg st table_name row (some ks) filters =
        (st2, .ok (n, .stmt_exec wc)) ∧ 1 ≤ wc.cond_count) ∧
    (Table.update cfg st table_name row Option.none [] =
      (st, .error (.query "UPDATE requires WHERE clause (filters or keys)"))) ∧
    (Table.delete cfg st table_name [] = (st, .error (.query "DELETE requires WHERE clause"))) ∧
    (∀ keys2 filters2 st2 n wc,
      Table.update cfg st table_name row keys2 filters2 = (st2, .ok (n, .stmt_exec wc)) →
      1 ≤ wc.cond_count) := by
  refine ⟨?_, ?_, ?_, ?_, ?_, ?_⟩
  · intro hne hempty
    rcases ks with _ | ⟨k0, kr⟩
    · exact absurd rfl hne
    · simp only [Table.update, hro, Bool.false_eq_true, if_false,
        SyncSchemaManager.get_table, hres, htd, hempty, List.isEmpty_nil, if_true]
  · intro hne hne2 hvk
    rcases ks with _ | ⟨k0, kr⟩
    · exact absurd rfl hne
    · have hfe : (row.filter (fun kv => !(k0 :: kr).contains kv.1)).isEmpty = false := by
        rw [List.isEmpty_eq_false]
        exact hne2
      have hb0 : FilterBuilder.build td
          (((k0 :: kr).filter (fun k2 =>
            (td.columns.map Prod.fst).contains k2 && (row.lookup k2).isSome)).map
            (fun k2 => (k2, (row.lookup k2).getD PyValue.none))) "AND" = .ok Option.none := by
        rw [hvk]
        rfl
      simp only [Table.update, hro, Bool.false_eq_true, if_false,
        SyncSchemaManager.get_table, hres, htd, hfe, update_where_exec_none _ _ _ _ _ hb0]
  · intro hne hne2 k0v ks0 hvk hnd
    rcases ks with _ | ⟨k0, kr⟩
    · exact absurd rfl hne
    · have hfe : (row.filter (fun kv => !(k0 :: kr).contains kv.1)).isEmpty = false := by
        rw [List.isEmpty_eq_false]
        exact hne2
      have hcols : ∀ cf ∈ (k0v :: ks0).map
          (fun k2 => (k2, (row.lookup k2).getD PyValue.none)),
          (td.columns.map Prod.fst).contains cf.1 = true := by
        intro cf hcf
        obtain ⟨k2, hk, hcf2⟩ := List.mem_map.mp hcf
        subst hcf2
        have hk2 : k2 ∈ (k0 :: kr).filter
            (fun k3 => (td.columns.map Prod.fst).contains k3 && (row.lookup k3).isSome) := by
          rw [hvk]
          exact hk
        have hpred := (List.mem_filter.mp hk2).2
        simp only [Bool.and_eq_true] at hpred
        exact hpred.1
      have hnd2 : ∀ cf ∈ (k0v :: ks0).map
          (fun k2 => (k2, (row.lookup k2).getD PyValue.none)),
          as_dict_entries cf.2 = Option.none := by
        intro cf hcf
        obtain ⟨k2, hk, hcf2⟩ := List.mem_map.mp hcf
        subst hcf2
        exact hnd k2 hk
      have hbc := build_clauses_eq_filters td _ hcols hnd2
      have hbuild : ∃ wc, FilterBuilder.build td
          ((k0v :: ks0).map (fun k2 => (k2, (row.lookup k2).getD PyValue.none))) "AND" =
          .ok (some wc) := by
        rcases ks0 with _ | ⟨k1, ks1⟩
        · refine ⟨.cmp .eq k0v ((row.lookup k0v).getD PyValue.none), ?_⟩
          simp only [List.map_cons, List.map_nil] at hbc ⊢
          simp only [FilterBuilder.build, List.isEmpty_cons, Bool.false_eq_true, if_false, hbc]
        · refine ⟨.conj ((k0v :: k1 :: ks1).map
            (fun k2 => SqlClause.cmp .eq k2 ((row.lookup k2).getD PyValue.none))), ?_⟩
          simp only [List.map_cons] at hbc ⊢
          simp only [FilterBuilder.build, List.isEmpty_cons, Bool.false_eq_true, if_false, hbc]
          rw [if_pos (by decide : py_str_upper "AND" = "AND")]
          simp [List.map_map, Function.comp]
      obtain ⟨wc, hb⟩ := hbuild
      have hbX : FilterBuilder.build td
          (((k0 :: kr).filter (fun k2 =>
            (td.columns.map Prod.fst).contains k2 && (row.lookup k2).isSome)).map
            (fun k2 => (k2, (row.lookup k2).getD PyValue.none))) "AND" = .ok (some wc) := by
        rw [hvk]
        exact hb
      have hupd2 : Table.update cfg st table_name row (some (k0 :: kr)) filters =
          Table.update_exec st key td (row.filter (fun kv => !(k0 :: kr).contains kv.1)) wc := by
        simp only [Table.update, hro, Bool.false_eq_true, if_false,
          SyncSchemaManager.get_table, hres, htd, hfe, Table.update_where_exec, hbX]
      exact ⟨_, _, wc, by rw [hupd2]; rfl, build_some_cond_pos td _ "AND" wc hbX⟩
  · have hb : FilterBuilder.build td ([] : List (String × PyValue)) "AND" =
        .ok Option.none := rfl
    simp only [Table.update, hro, Bool.false_eq_true, if_false,
      SyncSchemaManager.get_table, hres, htd, update_where_exec_none _ _ _ _ _ hb]
  · simp only [Table.delete, hro, Bool.false_eq_true, if_false, List.isEmpty_nil, if_true]
  · intro keys2 filters2 st2 n wc h
    simp only [Table.update, hro, Bool.false_eq_true, if_false,
      SyncSchemaManager.get_table, hres, htd] at h
    split at h
    · split at h
      · simp at h
      · exact update_where_exec_stmt _ _ _ _ _ _ _ _ h
    · exact update_where_exec_stmt _ _ _ _ _ _ _ _ h

/-- Witness for C1: on the fixture table, updating {name John, age 99,
ghost x} with keys [name, ghost] drops the ghost key and issues a
constrained UPDATE, and a filterless delete fails. -/
theorem c1_update_delete_where_guard_witness :
    (∃ st2 n wc, Table.update fix_cfg fix_st "people"
        [("name", .str "John"), ("age", .int 99), ("ghost", .str "x")]
        (some ["name", "ghost"]) [] =
      (st2, .ok (n, .stmt_exec wc)) ∧ 1 ≤ wc.cond_count) ∧
    Table.delete fix_cfg fix_st "people" [] =
      (fix_st, .error (.query "DELETE requires WHERE clause")) := by
  have h := c1_update_delete_where_guard fix_cfg fix_st "people" "people" fix_td_people
    [("name", .str "John"), ("age", .int 99), ("ghost", .str "x")] ["name", "ghost"] []
    rfl rfl rfl
  refine ⟨h.2.2.1 (by decide) (fun hcontra => List.noConfusion hcontra) "name" [] rfl ?_,
    h.2.2.2.2.1⟩
  intro k2 hk
  have hk2 := List.mem_singleton.mp hk
  subst hk2
  rfl

/-- C2 (amended): with the read-only flag set, every mutating table
operation fails immediately with a read-only-violation error whose message
names the attempted operation, leaving the state untouched and before any
schema work — with one exception the source code makes: `upsert_many`
checks for an empty row list *before* the read-only gate and returns 0 in
that case; for a non-empty batch it fails like the rest.  The read
operations `find` and `count` do not consult the flag at all: their results
are identical for both flag values. -/
theorem c2_read_only_gate (cfg : DbCfg) (st : DbState) (table_name : String) (row : Row)
    (rows : List Row) (ks : List String) (filters : List (String × PyValue))
    (keys2 : Option (List String)) (limit : Option Nat) (offset : Nat)
    (order_by : Option (List String)) (ensure : Option Bool)
    (types : Option (List (String × SqlType))) (cs : Nat)
    (hro : cfg.read_only = true) :
    Table.insert cfg st table_name row ensure types =
      (st, .error (.read_only_error "INSERT not allowed in read-only mode")) ∧
    Table.insert_many cfg st table_name rows ensure cs =
      (st, .error (.read_only_error "INSERT not allowed in read-only mode")) ∧
    Table.update cfg st table_name row keys2 filters =
      (st, .error (.read_only_error "UPDATE not allowed in read-only mode")) ∧
    Table.delete cfg st table_name filters =
      (st, .error (.read_only_error "DELETE not allowed in read-only mode")) ∧
    Table.upsert cfg st table_name row ks ensure types =
      (st, .error (.read_only_error "UPSERT not allowed in read-only mode")) ∧
    (rows ≠ [] → Table.upsert_many cfg st table_name rows ks cs ensure types =
      (st, .error (.read_only_error "UPSERT not allowed in read-only mode"))) ∧
    Table.upsert_many cfg st table_name [] ks cs ensure types = (st, .ok 0) ∧
    (∀ b, Table.find { cfg with read_only := b } st table_name limit offset order_by filters =
      Table.find cfg st table_name limit offset order_by filters) ∧
    (∀ b, Table.count { cfg with read_only := b } st table_name filters =
      Table.count cfg st table_name filters) := by
  have hrows : ∀ r2 : List Row, r2 ≠ [] → r2.isEmpty = false := by
    intro r2 h2
    rw [List.isEmpty_eq_false]
    exact h2
  refine ⟨?_, ?_, ?_, ?_, ?_, ?_, ?_, ?_, ?_⟩
  · simp [Table.insert, hro]
  · simp [Table.insert_many, hro]
  · simp [Table.update, hro]
  · simp [Table.delete, hro]
  · simp [Table.upsert, hro]
  · intro hne
    simp [Table.upsert_many, hro, hrows rows hne]
  · rfl
  · intro b
    cases cfg
    rfl
  · intro b
    cases cfg
    rfl

/-- Witness for C2: a read-only configuration rejects an insert on a
concrete state and leaves the state unchanged. -/
theorem c2_read_only_gate_witness :
    Table.insert fix_cfg_ro fix_st "people" [("name", .str "Ann")] Option.none Option.none =
      (fix_st, .error (.read_only_error "INSERT not allowed in read-only mode")) :=
  (c2_read_only_gate fix_cfg_ro fix_st "people" [("name", .str "Ann")] [] [] []
    Option.none Option.none 0 Option.none Option.none Option.none 1000 rfl).1

/-- Counterexample for C2 as frozen: `upsert_many` with an empty rows list
in read-only mode returns 0 instead of failing with a read-only-violation
error — the empty-batch shortcut precedes the read-only gate. -/
theorem c2_counterexample :
    Table.upsert_many fix_cfg_ro fix_st "people" [] ["name"] 1000 Option.none Option.none =
      (fix_st, .ok 0) ∧ fix_cfg_ro.read_only = true := ⟨rfl, rfl⟩

/-- C5: when `Table.upsert` is called with a key name that is not a column
of the table, the existing-row lookup fails with a query-construction
error that is caught and treated as "no existing row", so the operation
falls through to insert: the table gains a new row instead of updating the
matching one.  Only the query-error class is swallowed: when the lookup
fails with a different error kind (here: table-not-found, with ensuring
disabled on a missing table) the error propagates out of `upsert`. -/
theorem c5_upsert_unmatched_key_inserts
    (cfg : DbCfg) (st : DbState) (table_name key : String) (td : TableData) (row : Row)
    (ks : List String) (k : String)
    (hro : cfg.read_only = false)
    (hgen : cfg.pk.generator = Option.none)
    (hk : k ∈ ks)
    (hres : resolve_table_key cfg.schema_name st table_name = some key)
    (htd : lookup_table st key = some td)
    (hmiss : (td.columns.map Prod.fst).contains k = false) :
    (∃ pkv st2, Table.upsert cfg st table_name row ks (some false) Option.none =
        (st2, .ok pkv) ∧
      lookup_table st2 key = some { td with rows := td.rows ++ [row] }) ∧
    (∀ st0 : DbState, cfg.ensure_schema = false →
      resolve_table_key cfg.schema_name st0 table_name = Option.none →
      Table.upsert cfg st0 table_name row ks (some false) Option.none =
        (st0, .error (.table_not_found table_name))) := by
  constructor
  · have hmem : (k, (row.lookup k).getD PyValue.none) ∈
        ks.map (fun k2 => (k2, (row.lookup k2).getD PyValue.none)) :=
      List.mem_map_of_mem _ hk
    obtain ⟨m, hbuild⟩ := build_missing_col td _ "AND" k _ hmem hmiss
    have hfind : Table.find cfg st table_name (some 1) 0 Option.none
        (ks.map (fun k2 => (k2, (row.lookup k2).getD PyValue.none))) =
        (st, .error (.query m)) := by
      simp only [Table.find, SyncSchemaManager.get_table, hres, htd, hbuild]
    have hfone : Table.find_one cfg st table_name
        (ks.map (fun k2 => (k2, (row.lookup k2).getD PyValue.none))) =
        (st, .error (.query m)) := by
      simp only [Table.find_one, hfind]
    have hins : Table.insert cfg st table_name row (some false) Option.none =
        (set_table st key { td with rows := td.rows ++ [row] },
         .ok ((if cfg.pk.pk_type ≠ PkType.integer then
            (row.lookup cfg.pk.column_name).getD PyValue.none
          else .int (td.rows.length + 1)), row)) := by
      simp only [Table.insert, hro, Bool.false_eq_true, if_false, Option.getD_some,
        SyncSchemaManager.get_table, hres, hgen, ite_self, Table.insert_exec, htd]
    refine ⟨(if cfg.pk.pk_type ≠ PkType.integer then
        (row.lookup cfg.pk.column_name).getD PyValue.none
      else .int (td.rows.length + 1)),
      set_table st key { td with rows := td.rows ++ [row] }, ?_,
      lookup_set_self st key _ td htd⟩
    simp only [Table.upsert, hro, Bool.false_eq_true, if_false, Option.getD_some, hfone,
      hins]
  · intro st0 hens hres0
    have hfind0 : Table.find cfg st0 table_name (some 1) 0 Option.none
        (ks.map (fun k2 => (k2, (row.lookup k2).getD PyValue.none))) =
        (st0, .error (.table_not_found table_name)) := by
      simp only [Table.find, SyncSchemaManager.get_table, hres0, hens, Bool.false_eq_true,
        if_false]
    have hfone0 : Table.find_one cfg st0 table_name
        (ks.map (fun k2 => (k2, (row.lookup k2).getD PyValue.none))) =
        (st0, .error (.table_not_found table_name)) := by
      simp only [Table.find_one, hfind0]
    simp only [Table.upsert, hro, Bool.false_eq_true, if_false, Option.getD_some, hfone0]

/-- Witness for C5: the specification scenario — one row {name John,
age 30}; upsert {name John, age 99} with keys [name, nonexistent] inserts a
second row, leaving both ages present under John. -/
theorem c5_upsert_unmatched_key_inserts_witness :
    ∃ pkv st2, Table.upsert fix_cfg fix_st "people"
        [("name", .str "John"), ("age", .int 99)] ["name", "nonexistent"] (some false)
        Option.none = (st2, .ok pkv) ∧
      lookup_table st2 "people" =
        some { fix_td_people with rows := fix_td_people.rows ++
          [[("name", .str "John"), ("age", .int 99)]] } :=
  (c5_upsert_unmatched_key_inserts fix_cfg fix_st "people" "people" fix_td_people
    [("name", .str "John"), ("age", .int 99)] ["name", "nonexistent"] "nonexistent"
    rfl rfl (by decide) rfl rfl rfl).1

/-- C6: whenever `Table.upsert` takes its update branch (a truthy existing
row was found by the key lookup), the returned value is whatever the found
row stores under the literal field name `id` (None when absent), regardless
of the configured primary-key column name. -/
theorem c6_upsert_update_branch_reads_literal_id
    (cfg : DbCfg) (st st1 st2 : DbState) (table_name : String) (row : Row)
    (ks : List String) (ex : Row) (ur : Nat × UpdateOutcome)
    (hro : cfg.read_only = false)
    (hfind : Table.find_one cfg st table_name
      (ks.map (fun k2 => (k2, (row.lookup k2).getD PyValue.none))) = (st1, .ok (some ex)))
    (hne : ex.isEmpty = false)
    (hupd : Table.update cfg st1 table_name row (some ks) [("ensure", .bool false)] =
      (st2, .ok ur)) :
    Table.upsert cfg st table_name row ks (some false) Option.none =
      (st2, .ok ((ex.lookup "id").getD PyValue.none)) := by
  simp only [Table.upsert, hro, Bool.false_eq_true, if_false, Option.getD_some, hfind, hne,
    hupd]

/-- Witness for C6: with the primary-key column customized to `user_id`,
the update branch of upsert returns None — the found row has no `id`
field — rather than the real key value 7. -/
theorem c6_upsert_update_branch_reads_literal_id_witness :
    ∃ st2, Table.upsert fix_cfg_userpk fix_st_users "users"
        [("name", .str "John"), ("age", .int 99)] ["name"] (some false) Option.none =
      (st2, .ok PyValue.none) := by
  have h := c6_upsert_update_branch_reads_literal_id fix_cfg_userpk fix_st_users
    fix_st_users
    ⟨[("users", ⟨"users",
        [("user_id", .integer), ("name", .text), ("age", .integer)], [],
        [[("user_id", .int 7), ("name", .str "John"), ("age", .int 99)]]⟩)], 0⟩
    "users" [("name", .str "John"), ("age", .int 99)] ["name"]
    [("user_id", .int 7), ("name", .str "John"), ("age", .int 30)]
    (1, .stmt_exec (.cmp .eq "name" (.str "John")))
    rfl rfl rfl rfl
  exact ⟨_, h⟩

/-- C7 (amended).  Primary-key injection in the row-mutating pipeline:
`Table.insert` injects the generated key into the row exactly when the
configured primary-key kind has a generator and the key column is absent
(conjunct a); when no generator is configured (conjunct b) or the key is
already present (conjunct c) the row is passed to the statement verbatim;
`PrimaryKeyConfig.__init__` gives the Integer kind no generator and the
UUID kind always one (conjunct d), so the Integer kind never injects.  The
original claim is refuted for `insert_many` by the separate
counterexample: it never generates or injects a key for any row. -/
theorem c7_pk_injection (cfg : DbCfg) (st : DbState) (table_name key : String)
    (row : Row) (td : TableData) (g : Nat → PyValue)
    (hro : cfg.read_only = false)
    (hres : resolve_table_key cfg.schema_name st table_name = some key)
    (htd : lookup_table st key = some td) :
    ((cfg.pk.generator = some g → row.lookup cfg.pk.column_name = Option.none →
        Table.insert cfg st table_name row (some false) Option.none =
          (set_table { st with gen_ctr := st.gen_ctr + 1 } key
             { td with rows := td.rows ++ [row ++ [(cfg.pk.column_name, g st.gen_ctr)]] },
           .ok ((if cfg.pk.pk_type ≠ PkType.integer
                  then ((row ++ [(cfg.pk.column_name, g st.gen_ctr)]).lookup
                         cfg.pk.column_name).getD PyValue.none
                  else .int (td.rows.length + 1)),
                row ++ [(cfg.pk.column_name, g st.gen_ctr)]))) ∧
      (cfg.pk.generator = Option.none →
        Table.insert cfg st table_name row (some false) Option.none =
          (set_table st key { td with rows := td.rows ++ [row] },
           .ok ((if cfg.pk.pk_type ≠ PkType.integer
                  then (row.lookup cfg.pk.column_name).getD PyValue.none
                  else .int (td.rows.length + 1)), row))) ∧
      ((row.lookup cfg.pk.column_name).isSome = true →
        Table.insert cfg st table_name row (some false) Option.none =
          (set_table st key { td with rows := td.rows ++ [row] },
           .ok ((if cfg.pk.pk_type ≠ PkType.integer
                  then (row.lookup cfg.pk.column_name).getD PyValue.none
                  else .int (td.rows.length + 1)), row)))) ∧
    ((∀ cn gopt topt u, (mk_primary_key_config PkType.integer cn gopt topt u).map
        (fun c => c.generator.isSome) = .ok false) ∧
     (∀ cn gopt topt u, (mk_primary_key_config PkType.uuid cn gopt topt u).map
        (fun c => c.generator.isSome) = .ok true)) := by
  refine ⟨⟨?_, ?_, ?_⟩, fun cn gopt topt u => rfl, fun cn gopt topt u => by
    simp only [mk_primary_key_config, Except.map, Option.isSome_some]⟩
  · intro hgen habsent
    simp only [Table.insert, hro, Bool.false_eq_true, if_false, Option.getD_some,
      SyncSchemaManager.get_table, hres, habsent, Option.isNone_none, if_true, hgen,
      Table.insert_exec, lookup_table] at *
    simp only [htd]
  · intro hgen
    simp only [Table.insert, hro, Bool.false_eq_true, if_false, Option.getD_some,
      SyncSchemaManager.get_table, hres, hgen, Table.insert_exec, lookup_table] at *
    cases hlk : row.lookup cfg.pk.column_name <;>
      simp only [Option.isNone_none, Option.isNone_some, Bool.false_eq_true, if_true,
        if_false, htd]
  · intro hsome
    rw [Option.isSome_iff_exists] at hsome
    obtain ⟨v, hv⟩ := hsome
    simp only [Table.insert, hro, Bool.false_eq_true, if_false, Option.getD_some,
      SyncSchemaManager.get_table, hres, hv, Option.isNone_some, if_false,
      Table.insert_exec, lookup_table] at *
    simp only [htd]

/-- Witness for C7: inserting a row without `id` under the UUID
configuration stores the row with the generated key appended and returns
that key. -/
theorem c7_pk_injection_witness :
    (Table.insert fix_cfg_uuid fix_st_t "t" [("name", PyValue.str "Bob")]
        (some false) Option.none).2 =
      .ok (PyValue.str "uuid-0",
           [("name", PyValue.str "Bob"), ("id", PyValue.str "uuid-0")]) := by
  have h := ((c7_pk_injection fix_cfg_uuid fix_st_t "t" "t" [("name", PyValue.str "Bob")]
    fix_td_t fix_gen rfl rfl rfl).1).1 rfl rfl
  rw [h]
  rfl

/-- Counterexample to C7 as stated: `insert_many` under the UUID
configuration stores a row lacking the primary-key column verbatim — no
key is generated or injected — even though the configured kind has a
generator. -/
theorem c7_counterexample :
    Table.insert_many fix_cfg_uuid fix_st_t "t" [[("name", PyValue.str "Bob")]]
        (some false) 1000 =
      (set_table fix_st_t "t" { fix_td_t with rows := [[("name", PyValue.str "Bob")]] },
       .ok 1) ∧
    ([("name", PyValue.str "Bob")] : Row).lookup "id" = Option.none ∧
    fix_cfg_uuid.pk.generator.isSome = true ∧
    fix_cfg_uuid.pk.pk_type = PkType.uuid :=
  ⟨rfl, rfl, rfl, rfl⟩

/-- The unordered column-set comparison is reflexive. -/
theorem list_set_eq_refl (a : List String) : list_set_eq a a = true := by
  simp only [list_set_eq, Bool.and_eq_true, List.all_eq_true]
  constructor <;> intro x hx <;> simpa using hx

/-- C8 (amended).  `create_index` is idempotent for a non-empty column
list over existing columns PROVIDED no already-stored index carries the
generated name over a different column set (hypothesis h5): the first call
returns the generated name, the second call returns the same name with no
CREATE statement executed and leaves the state unchanged, and
`index_exists` holds afterwards.  Without h5 the original claim fails:
the separate counterexample shows a stored index named like the generated
name but covering different columns makes the call a checkfirst no-op
while `index_exists` stays false. -/
theorem c8_create_index_idempotent (cfg : DbCfg) (st : DbState) (tdCall : TableData)
    (cols : List String) (tkey : String) (tdState : TableData)
    (h1 : cols.isEmpty = false)
    (h2 : cols.all (fun c => (tdCall.columns.map Prod.fst).contains c) = true)
    (h3 : resolve_table_key cfg.schema_name st tdCall.name = some tkey)
    (h4 : lookup_table st tkey = some tdState)
    (h5 : tdState.indexes.all (fun idx =>
        !(idx.1 == SyncSchemaManager.generate_index_name tdCall.name cols) ||
          list_set_eq cols idx.2) = true) :
    ∃ st1 created,
      SyncSchemaManager.create_index cfg st tdCall cols Option.none false =
        (st1, .ok (SyncSchemaManager.generate_index_name tdCall.name cols, created)) ∧
      SyncSchemaManager.create_index cfg st1 tdCall cols Option.none false =
        (st1, .ok (SyncSchemaManager.generate_index_name tdCall.name cols, false)) ∧
      SyncSchemaManager.index_exists cfg st1 tdCall.name cols = true := by
  have hfind : cols.find? (fun c => !(tdCall.columns.map Prod.fst).contains c) =
      Option.none := by
    rw [List.find?_eq_none]
    intro x hx
    rw [List.all_eq_true] at h2
    simp only [h2 x hx, Bool.not_true, Bool.false_eq_true, not_false_eq_true]
  by_cases hex : SyncSchemaManager.index_exists cfg st tdCall.name cols = true
  · refine ⟨st, false, ?_, ?_, hex⟩ <;>
      simp only [SyncSchemaManager.create_index, h1, Bool.false_eq_true, if_false, hfind,
        Option.getD_none, hex, if_true]
  · have hexf : SyncSchemaManager.index_exists cfg st tdCall.name cols = false :=
      Bool.eq_false_iff.mpr hex
    have hexf2 : tdState.indexes.any (fun idx => list_set_eq cols idx.2) = false := by
      have h0 := hexf
      simp only [SyncSchemaManager.index_exists, h3, h4] at h0
      exact h0
    have hany : tdState.indexes.any (fun idx =>
        idx.1 == SyncSchemaManager.generate_index_name tdCall.name cols) = false := by
      by_contra hc
      rw [Bool.not_eq_false, List.any_eq_true] at hc
      obtain ⟨idx, hmem, hbeq⟩ := hc
      rw [List.all_eq_true] at h5
      have h6 := h5 idx hmem
      rw [hbeq] at h6
      simp only [Bool.not_true, Bool.false_or] at h6
      have : tdState.indexes.any (fun idx => list_set_eq cols idx.2) = true :=
        List.any_eq_true.mpr ⟨idx, hmem, h6⟩
      rw [this] at hexf2
      exact Bool.true_eq_false.mp hexf2
    refine ⟨set_table st tkey
      { tdState with indexes := tdState.indexes ++
          [(SyncSchemaManager.generate_index_name tdCall.name cols, cols)] }, true,
      ?_, ?_, ?_⟩
    · simp only [SyncSchemaManager.create_index, h1, Bool.false_eq_true, if_false, hfind,
        Option.getD_none, hexf, h3, h4, hany]
    · have hex1 : SyncSchemaManager.index_exists cfg
          (set_table st tkey { tdState with indexes := tdState.indexes ++
            [(SyncSchemaManager.generate_index_name tdCall.name cols, cols)] })
          tdCall.name cols = true := by
        simp only [SyncSchemaManager.index_exists, resolve_set_table, h3,
          lookup_set_self st tkey _ tdState h4]
        rw [List.any_eq_true]
        exact ⟨(SyncSchemaManager.generate_index_name tdCall.name cols, cols),
          List.mem_append.mpr (Or.inr (List.mem_singleton.mpr rfl)), list_set_eq_refl cols⟩
      simp only [SyncSchemaManager.create_index, h1, Bool.false_eq_true, if_false, hfind,
        Option.getD_none, hex1, if_true]
    · simp only [SyncSchemaManager.index_exists, resolve_set_table, h3,
        lookup_set_self st tkey _ tdState h4]
      rw [List.any_eq_true]
      exact ⟨(SyncSchemaManager.generate_index_name tdCall.name cols, cols),
        List.mem_append.mpr (Or.inr (List.mem_singleton.mpr rfl)), list_set_eq_refl cols⟩

/-- Witness for C8: on a table with no indexes, creating an index on
`name` twice yields the generated name both times, the second call is a
no-op, and `index_exists` holds afterwards. -/
theorem c8_create_index_idempotent_witness :
    ∃ st1 created,
      SyncSchemaManager.create_index fix_cfg fix_st_t fix_td_t ["name"] Option.none false =
        (st1, .ok (SyncSchemaManager.generate_index_name fix_td_t.name ["name"], created)) ∧
      SyncSchemaManager.create_index fix_cfg st1 fix_td_t ["name"] Option.none false =
        (st1, .ok (SyncSchemaManager.generate_index_name fix_td_t.name ["name"], false)) ∧
      SyncSchemaManager.index_exists fix_cfg st1 fix_td_t.name ["name"] = true :=
  c8_create_index_idempotent fix_cfg fix_st_t fix_td_t ["name"] "t" fix_td_t
    rfl rfl rfl rfl rfl

/-- Counterexample to C8 as stated: a stored index named `idx_t_email` —
exactly the generated name for (`t`, `[email]`) — but covering the column
set `[other]` makes `create_index t [email]` a checkfirst no-op returning
`(idx_t_email, no statement)`, while `index_exists t [email]` is false
both before and after: the claimed "index_exists is true after either
call" fails. -/
theorem c8_counterexample :
    SyncSchemaManager.create_index fix_cfg fix_st_idx fix_td_idx ["email"] Option.none false =
      (fix_st_idx, .ok ("idx_t_email", false)) ∧
    SyncSchemaManager.generate_index_name fix_td_idx.name ["email"] = "idx_t_email" ∧
    SyncSchemaManager.index_exists fix_cfg fix_st_idx "t" ["email"] = false :=
  ⟨rfl, rfl, rfl⟩

/-- Appending a `(a, v)` pair to a row lacking key `a` makes `a` look up to
`v`. -/
theorem list_lookup_append_self (r : Row) (a : String) (v : PyValue)
    (h : r.lookup a = Option.none) : (r ++ [(a, v)]).lookup a = some v := by
  induction r with
  | nil => rw [List.nil_append, List.lookup_cons_self]
  | cons p rest ih =>
    obtain ⟨c, w⟩ := p
    by_cases hk : a = c
    · subst hk
      rw [List.lookup_cons_self] at h
      cases h
    · rw [List.cons_append, List.lookup_cons]
      rw [List.lookup_cons] at h
      simp only [beq_false_of_ne hk] at h ⊢
      exact ih h

/-- C10.  `Table.insert` mutates the caller's row mapping exactly as
claimed: when the configured kind has a generator and the key column is
absent, the caller's mapping afterwards carries the generated key under
the primary-key column while every other key looks up unchanged; when no
generator is configured (Integer kind) or the key is already present, the
caller's mapping is returned unmodified. -/
theorem c10_insert_row_mutation (cfg : DbCfg) (st : DbState) (table_name key : String)
    (row : Row) (td : TableData) (g : Nat → PyValue)
    (hro : cfg.read_only = false)
    (hres : resolve_table_key cfg.schema_name st table_name = some key)
    (htd : lookup_table st key = some td) :
    (cfg.pk.generator = some g → row.lookup cfg.pk.column_name = Option.none →
      ∃ st2 pkv rowAfter,
        Table.insert cfg st table_name row (some false) Option.none =
          (st2, .ok (pkv, rowAfter)) ∧
        rowAfter.lookup cfg.pk.column_name = some (g st.gen_ctr) ∧
        ∀ k2, k2 ≠ cfg.pk.column_name → rowAfter.lookup k2 = row.lookup k2) ∧
    (cfg.pk.generator = Option.none →
      ∃ st2 pkv, Table.insert cfg st table_name row (some false) Option.none =
        (st2, .ok (pkv, row))) ∧
    ((row.lookup cfg.pk.column_name).isSome = true →
      ∃ st2 pkv, Table.insert cfg st table_name row (some false) Option.none =
        (st2, .ok (pkv, row))) := by
  refine ⟨?_, ?_, ?_⟩
  · intro hgen habsent
    refine ⟨set_table { st with gen_ctr := st.gen_ctr + 1 } key
        { td with rows := td.rows ++ [row ++ [(cfg.pk.column_name, g st.gen_ctr)]] },
      (if cfg.pk.pk_type ≠ PkType.integer
        then ((row ++ [(cfg.pk.column_name, g st.gen_ctr)]).lookup
               cfg.pk.column_name).getD PyValue.none
        else .int (td.rows.length + 1)),
      row ++ [(cfg.pk.column_name, g st.gen_ctr)], ?_,
      list_lookup_append_self row cfg.pk.column_name (g st.gen_ctr) habsent,
      fun k2 hk2 => list_lookup_append_single row cfg.pk.column_name (g st.gen_ctr) k2 hk2⟩
    simp only [Table.insert, hro, Bool.false_eq_true, if_false, Option.getD_some,
      SyncSchemaManager.get_table, hres, habsent, Option.isNone_none, if_true, hgen,
      Table.insert_exec, lookup_table] at *
    simp only [htd]
  · intro hgen
    refine ⟨set_table st key { td with rows := td.rows ++ [row] },
      (if cfg.pk.pk_type ≠ PkType.integer
        then (row.lookup cfg.pk.column_name).getD PyValue.none
        else .int (td.rows.length + 1)), ?_⟩
    simp only [Table.insert, hro, Bool.false_eq_true, if_false, Option.getD_some,
      SyncSchemaManager.get_table, hres, hgen, Table.insert_exec, lookup_table] at *
    cases hlk : row.lookup cfg.pk.column_name <;>
      simp only [Option.isNone_none, Option.isNone_some, Bool.false_eq_true, if_true,
        if_false, htd]
  · intro hsome
    rw [Option.isSome_iff_exists] at hsome
    obtain ⟨v, hv⟩ := hsome
    refine ⟨set_table st key { td with rows := td.rows ++ [row] },
      (if cfg.pk.pk_type ≠ PkType.integer
        then (row.lookup cfg.pk.column_name).getD PyValue.none
        else .int (td.rows.length + 1)), ?_⟩
    simp only [Table.insert, hro, Bool.false_eq_true, if_false, Option.getD_some,
      SyncSchemaManager.get_table, hres, hv, Option.isNone_some, if_false,
      Table.insert_exec, lookup_table] at *
    simp only [htd]

/-- Witness for C10: inserting `{name: Bob}` under the UUID configuration
leaves the caller's mapping carrying the generated `id` entry, with the
`name` entry unchanged. -/
theorem c10_insert_row_mutation_witness :
    ∃ st2 pkv rowAfter,
      Table.insert fix_cfg_uuid fix_st_t "t" [("name", PyValue.str "Bob")]
          (some false) Option.none = (st2, .ok (pkv, rowAfter)) ∧
      rowAfter.lookup fix_cfg_uuid.pk.column_name = some (fix_gen fix_st_t.gen_ctr) ∧
      ∀ k2, k2 ≠ fix_cfg_uuid.pk.column_name →
        rowAfter.lookup k2 = ([("name", PyValue.str "Bob")] : Row).lookup k2 :=
  (c10_insert_row_mutation fix_cfg_uuid fix_st_t "t" "t" [("name", PyValue.str "Bob")]
    fix_td_t fix_gen rfl rfl rfl).1 rfl rfl
